import Mathlib

/-!
# Paratick: a shallow embedding of `paratick.c`

Per-CPU dynamic tick core.  The C functions of `src/paratick.c` are embedded as
pure functions over an explicit machine state `Kernel`:

* `ktime_t` / `s64` values are `Int`, every arithmetic result is reduced with
  `wrap64` (two's complement, the kernel is built with wrapping signed
  arithmetic); the 32-bit `int` of the accounting loop uses `wrap32`;
* `u64` collaborator results are `Nat` values (below `2 ^ 64`), converted to
  `ktime_t` with `wrap64`;
* the packed `char flags` is the byte's bit pattern, a `Nat`;
* every call into a kernel collaborator is appended to `Kernel.log`, so that
  "is invoked once" is a statement about the log;
* what the collaborators answer during one operation is an `Env`.
-/

namespace Paratick

/-! ## Machine integers and constants -/

/-- The signed 64-bit value of an integer (two's complement wrap-around). -/
def wrap64 (x : Int) : Int := (x + 2 ^ 63) % 2 ^ 64 - 2 ^ 63

/-- The signed 32-bit value of an integer: the conversion to C `int`. -/
def wrap32 (x : Int) : Int := (x + 2 ^ 31) % 2 ^ 32 - 2 ^ 31

/-- Sentinel of `paratick_do_timer_cpu`: no CPU is timekeeper. -/
def TICK_DO_TIMER_NONE : Int := -1

/-- The base tick period, in nanoseconds. -/
def TICK_PERIOD : Int := 4000000

def PARATICK_INIT_MASK : Nat := 0x1

def PARATICK_IDLE_MASK : Nat := 0x2

def PARATICK_TIMER_MASK : Nat := 0x4

/-- Modelled from the spec: the saturating maximum of `ktime_t` ("never"), the
kernel's `KTIME_MAX`, whose definition is not under `src/`: the largest signed
64-bit value. -/
def KTIME_MAX : Int := 2 ^ 63 - 1

/-- The kernel's `BIT(n)`, `1UL << n`. -/
def BIT (n : Nat) : Nat := 1 <<< n

/-! ## Collaborators -/

/-- Calls into kernel collaborators, in the order the code makes them. -/
inductive Call where
  | ktime_get
  | rcu_needs_cpu
  | arch_needs_cpu
  | irq_work_needs_cpu
  | local_softirq_pending
  | get_next_timer_interrupt
  | timekeeping_max_deferment
  | timer_clear_idle
  | hrtimer_init (cpu : Nat)
  | hrtimer_cancel (cpu : Nat)
  | hrtimer_set_expires (cpu : Nat) (time : Int)
  | hrtimer_forward (cpu : Nat) (now interval : Int)
  | hrtimer_start_expires (cpu : Nat)
  | sched_clock_idle_sleep_event
  | local_irq_disable
  | local_irq_enable
  | local_irq_save
  | local_irq_restore
  | nohz_balance_enter_idle (cpu : Nat)
  | profile_tick
  | account_process_tick (user : Int)
  | run_local_timers
  | rcu_sched_clock_irq (user : Int)
  | irq_work_tick
  | scheduler_tick
  | run_posix_cpu_timers
  | net_rand_state_add (user : Int)
  | tick_do_update_jiffies64 (now : Int)
  | touch_softlockup_watchdog_sched
  | ack_APIC_irq
  | alloc_desc
  deriving DecidableEq, Repr

/-- What the kernel collaborators answer while one operation runs. -/
structure Env where
  /-- the reading of `ktime_get()` -/
  ktime : Int
  /-- return value of `rcu_needs_cpu(basemono, &next_rcu)` -/
  rcu_needs_cpu : Bool
  /-- the `u64` stored through `&next_rcu` -/
  next_rcu : Nat
  arch_needs_cpu : Bool
  irq_work_needs_cpu : Bool
  /-- the pending-softirq bit mask `local_softirq_pending()` -/
  local_softirq_pending : Nat
  /-- the kernel's softirq number `TIMER_SOFTIRQ` (its enum is not under `src/`) -/
  TIMER_SOFTIRQ : Nat
  /-- the `u64` result of `get_next_timer_interrupt(basejiff, basemono)` -/
  next_tmr : Nat
  /-- the `u64` result of `timekeeping_max_deferment()` -/
  max_deferment : Nat
  /-- the kernel's `hrtimer_resolution` -/
  hrtimer_resolution : Int
  /-- the value of `user_mode(get_irq_regs())` -/
  user : Int
  /-- the value of `in_irq()` -/
  in_irq : Bool
  /-- the value of `IS_ENABLED(CONFIG_POSIX_TIMERS)` -/
  CONFIG_POSIX_TIMERS : Bool
  /-- the kernel's `NR_CPUS` -/
  NR_CPUS : Nat

/-! ## Data model -/

/-- Modelled from the spec: the one-shot high-resolution timer handle
(`struct hrtimer` of the kernel, not under `src/`): its programmed absolute
expiry, whether an expiry is registered (enqueued), and whether the callback
`paratick_sched_timer` is installed. -/
structure hrtimer where
  expires : Int
  enqueued : Bool
  function_set : Bool
  deriving DecidableEq, Repr

/-- The per-CPU `struct paratick_data`. -/
structure paratick_data where
  timer : hrtimer
  flags : Nat
  last_tick : Int
  deriving DecidableEq, Repr

/-- The machine state: the per-CPU `data`, the global `paratick_do_timer_cpu`,
the entry `PARATICK_IRQ_VECTOR` of every CPU's `vector_irq` table (whether it
holds the paratick descriptor), and the log of collaborator calls. -/
structure Kernel where
  data : Nat → paratick_data
  paratick_do_timer_cpu : Int
  vector_irq : Nat → Bool
  log : List Call

/-- Static initialisation: zeroed per-CPU data, no timekeeper. -/
def boot : Kernel :=
  { data := fun _ => { timer := { expires := 0, enqueued := false, function_set := false },
                       flags := 0, last_tick := 0 },
    paratick_do_timer_cpu := TICK_DO_TIMER_NONE,
    vector_irq := fun _ => false,
    log := [] }

/-- Record one collaborator call. -/
def call (c : Call) (k : Kernel) : Kernel := { k with log := k.log ++ [c] }

/-- Record a sequence of collaborator calls. -/
def calls (cs : List Call) (k : Kernel) : Kernel := { k with log := k.log ++ cs }

/-- Store `pd` as the per-CPU data of `cpu`. -/
def set_pd (cpu : Nat) (pd : paratick_data) (k : Kernel) : Kernel :=
  { k with data := fun c => if c = cpu then pd else k.data c }

/-- The collaborator calls made between state `k` and the later state `k2`. -/
def calls_since (k k2 : Kernel) : List Call := k2.log.drop k.log.length

/-! ## Flag accessors -/

/-- The function `paratick_get_flag`: `pd->flags & mask`, converted to `bool`. -/
def paratick_get_flag (flags mask : Nat) : Bool := (flags &&& mask) != 0

def paratick_get_init (pd : paratick_data) : Bool :=
  paratick_get_flag pd.flags PARATICK_INIT_MASK

def paratick_get_idle (pd : paratick_data) : Bool :=
  paratick_get_flag pd.flags PARATICK_IDLE_MASK

def paratick_get_timer (pd : paratick_data) : Bool :=
  paratick_get_flag pd.flags PARATICK_TIMER_MASK

/-- The function `paratick_set_flag` on the flag byte: `flags | mask` or `flags & ~mask`
(the complement taken within the 8 bits of the `char`). -/
def paratick_set_flag (flags mask : Nat) (val : Bool) : Nat :=
  if val then flags ||| mask else flags &&& (0xFF ^^^ mask)

def paratick_set_init (pd : paratick_data) (val : Bool) : paratick_data :=
  { pd with flags := paratick_set_flag pd.flags PARATICK_INIT_MASK val }

def paratick_set_idle (pd : paratick_data) (val : Bool) : paratick_data :=
  { pd with flags := paratick_set_flag pd.flags PARATICK_IDLE_MASK val }

def paratick_set_timer (pd : paratick_data) (val : Bool) : paratick_data :=
  { pd with flags := paratick_set_flag pd.flags PARATICK_TIMER_MASK val }

/-! ## The next-event oracle -/

/-- The function `local_timer_softirq_pending`: `local_softirq_pending() & BIT(TIMER_SOFTIRQ)`. -/
def local_timer_softirq_pending (e : Env) : Bool :=
  (e.local_softirq_pending &&& BIT e.TIMER_SOFTIRQ) != 0

/-- The veto condition of `paratick_next_event`. -/
def veto (e : Env) : Bool :=
  e.rcu_needs_cpu
    || e.arch_needs_cpu
    || e.irq_work_needs_cpu
    || local_timer_softirq_pending e
    || (e.local_softirq_pending != 0)

/-- The collaborator queries the short-circuit `||` chain evaluates. -/
def veto_calls (e : Env) : List Call :=
  Call.rcu_needs_cpu ::
    (if e.rcu_needs_cpu then [] else
      Call.arch_needs_cpu ::
        (if e.arch_needs_cpu then [] else
          Call.irq_work_needs_cpu ::
            (if e.irq_work_needs_cpu then [] else
              Call.local_softirq_pending ::
                (if local_timer_softirq_pending e then [] else
                  [Call.local_softirq_pending]))))

/-- The local `deadline` of `paratick_next_event`: the `u64` minimum
`next_rcu < next_tmr ? next_rcu : next_tmr`, stored in a `ktime_t`. -/
def deadline (e : Env) : Int :=
  wrap64 ((if e.next_rcu < e.next_tmr then e.next_rcu else e.next_tmr : Nat) : Int)

/-- The local `delta` of `paratick_next_event`: `deadline - now`. -/
def delta (e : Env) (now : Int) : Int := wrap64 (deadline e - now)

/-- The local `max_deadline`: `timekeeping_max_deferment()` stored in a `ktime_t`. -/
def max_deadline (e : Env) : Int := wrap64 (e.max_deferment : Int)

/-- Lines 128-136 of `paratick_next_event`: the final `if / else if / else`. -/
def next_event_rest (e : Env) (now : Int) (k : Kernel) : Int × Kernel :=
  if delta e now < TICK_PERIOD then (TICK_PERIOD, call Call.timer_clear_idle k)
  else if deadline e = KTIME_MAX then (KTIME_MAX, k)
  else (delta e now, k)

/-- The function `paratick_next_event(now)`: the returned deferral and the state after the
call (the queries made, and `timer_clear_idle` when the code calls it). -/
def paratick_next_event (e : Env) (now : Int) (k : Kernel) : Int × Kernel :=
  let next_tick := TICK_PERIOD
  let k := calls (veto_calls e) k
  if veto e then (next_tick, k)
  else
    let k := call Call.get_next_timer_interrupt k
    if k.paratick_do_timer_cpu = TICK_DO_TIMER_NONE then
      let k := call Call.timekeeping_max_deferment k
      if max_deadline e < delta e now then (max_deadline e, k)
      else next_event_rest e now k
    else next_event_rest e now k

/-! ## The timer collaborator -/

/-- Modelled from the spec: `hrtimer_init` of the kernel (not under `src/`):
a fresh, inactive timer without callback. -/
def hrtimer_init (_t : hrtimer) : hrtimer :=
  { expires := 0, enqueued := false, function_set := false }

/-- Modelled from the spec: `hrtimer_cancel` of the kernel (not under `src/`):
"cancel any prior expiry". -/
def hrtimer_cancel (t : hrtimer) : hrtimer := { t with enqueued := false }

/-- Modelled from the spec: `hrtimer_set_expires` of the kernel (not under
`src/`): store the absolute expiry. -/
def hrtimer_set_expires (t : hrtimer) (time : Int) : hrtimer := { t with expires := time }

/-- Modelled from the spec: the kernel's saturating `ktime_add_safe` used by
`hrtimer_add_expires` (not under `src/`): the wrapped sum, replaced by
`ktime_set(KTIME_SEC_MAX, 0)`, which is `KTIME_MAX`, when the sum overflowed. -/
def ktime_add_safe (lhs rhs : Int) : Int :=
  let res := wrap64 (lhs + rhs)
  if res < 0 ∨ res < lhs ∨ res < rhs then KTIME_MAX else res

/-- Modelled from the spec: `hrtimer_forward(timer, now, interval)` of the
kernel (not under `src/`): move the expiry past `now` in steps of `interval`
(at least `hrtimer_resolution`); nothing happens when the expiry is still
ahead of `now` or the timer is enqueued. -/
def hrtimer_forward (res : Int) (t : hrtimer) (now interval : Int) : hrtimer :=
  let d := wrap64 (now - t.expires)
  if d < 0 then t
  else if t.enqueued then t
  else
    let interval := if interval < res then res else interval
    if d ≥ interval then
      let orun := Int.tdiv d interval
      let t1 := { t with expires := wrap64 (t.expires + wrap64 (interval * orun)) }
      if t1.expires > now then t1
      else { t1 with expires := ktime_add_safe t1.expires interval }
    else { t with expires := ktime_add_safe t.expires interval }

/-- Modelled from the spec: `hrtimer_start_expires` of the kernel (not under
`src/`): register the stored expiry. -/
def hrtimer_start_expires (t : hrtimer) : hrtimer := { t with enqueued := true }

/-! ## Arming and disarming -/

/-- The function `paratick_start_tick(pd, now, delta)` on the data of `cpu`. -/
def paratick_start_tick (cpu : Nat) (e : Env) (now delta : Int) (k : Kernel) : Kernel :=
  let pd := paratick_set_timer (k.data cpu) true
  let pd := { pd with timer := hrtimer_cancel pd.timer }
  let k := call (Call.hrtimer_cancel cpu) (set_pd cpu pd k)
  let pd := { pd with timer := hrtimer_set_expires pd.timer (wrap64 (now - 1)) }
  let k := call (Call.hrtimer_set_expires cpu (wrap64 (now - 1))) (set_pd cpu pd k)
  let pd := { pd with timer := hrtimer_forward e.hrtimer_resolution pd.timer now delta }
  let k := call (Call.hrtimer_forward cpu now delta) (set_pd cpu pd k)
  let pd := { pd with timer := hrtimer_start_expires pd.timer }
  call (Call.hrtimer_start_expires cpu) (set_pd cpu pd k)

/-- The function `paratick_stop_tick(pd)` on the data of `cpu`. -/
def paratick_stop_tick (cpu : Nat) (k : Kernel) : Kernel :=
  let pd := k.data cpu
  let pd := { pd with timer := hrtimer_cancel pd.timer }
  let k := call (Call.hrtimer_cancel cpu) (set_pd cpu pd k)
  set_pd cpu (paratick_set_timer pd false) k

/-! ## Public operations -/

/-- The function `paratick_enter_idle()` running on `cpu`. -/
def paratick_enter_idle (cpu : Nat) (k : Kernel) : Kernel :=
  let k := set_pd cpu (paratick_set_idle (k.data cpu) true) k
  let k := if k.paratick_do_timer_cpu = (cpu : Int)
           then { k with paratick_do_timer_cpu := TICK_DO_TIMER_NONE } else k
  call Call.sched_clock_idle_sleep_event k

/-- The function `paratick_exit_idle()` running on `cpu`. -/
def paratick_exit_idle (cpu : Nat) (k : Kernel) : Kernel :=
  let k := call Call.local_irq_disable k
  let k := call Call.timer_clear_idle k
  let k := set_pd cpu (paratick_set_idle (k.data cpu) false) k
  let k := if paratick_get_timer (k.data cpu) then paratick_stop_tick cpu k else k
  call Call.local_irq_enable k

/-- The function `paratick_start_idle()` running on `cpu`. -/
def paratick_start_idle (cpu : Nat) (e : Env) (k : Kernel) : Kernel :=
  if paratick_get_init (k.data cpu) then
    let k := call Call.local_irq_disable k
    let now := e.ktime
    let k := call Call.ktime_get k
    let r := paratick_next_event e now k
    let next_event := r.1
    let k := r.2
    let k := if next_event < KTIME_MAX then paratick_start_tick cpu e now next_event k
             else if paratick_get_timer (k.data cpu) then paratick_stop_tick cpu k
             else k
    let k := if next_event > TICK_PERIOD then call (Call.nohz_balance_enter_idle cpu) k else k
    call Call.local_irq_enable k
  else k

/-- The `while (num_ticks > 0)` loop of `paratick_account_process_ticks`, run
for a counter that starts at `n` (it makes no iteration for a counter `≤ 0`). -/
def account_loop (user : Int) : Nat → List Call
  | 0 => []
  | n + 1 => Call.profile_tick :: Call.account_process_tick user :: account_loop user n

/-- The local `int num_ticks = (now - *last) / TICK_PERIOD`: a 64-bit
difference, C division (truncating), stored in a 32-bit `int`. -/
def num_ticks (now last : Int) : Int := wrap32 (Int.tdiv (wrap64 (now - last)) TICK_PERIOD)

/-- The function `paratick_account_process_ticks(now, user)` running on `cpu`. -/
def paratick_account_process_ticks (cpu : Nat) (now user : Int) (k : Kernel) : Kernel :=
  let n := num_ticks now (k.data cpu).last_tick
  let k := calls (account_loop user n.toNat) k
  set_pd cpu { k.data cpu with last_tick := now } k

/-- The function `paratick_update_process_times(now, user)` running on `cpu`. -/
def paratick_update_process_times (cpu : Nat) (e : Env) (now user : Int) (k : Kernel) : Kernel :=
  let k := paratick_account_process_ticks cpu now user k
  let k := call Call.run_local_timers k
  let k := call (Call.rcu_sched_clock_irq user) k
  let k := if e.in_irq then call Call.irq_work_tick k else k
  let k := call Call.scheduler_tick k
  let k := if e.CONFIG_POSIX_TIMERS then call Call.run_posix_cpu_timers k else k
  call (Call.net_rand_state_add user) k

/-- The function `paratick_irq_enter()` running on `cpu`. -/
def paratick_irq_enter (cpu : Nat) (e : Env) (k : Kernel) : Kernel :=
  let now := e.ktime
  let k := call Call.ktime_get k
  let k := if paratick_get_init (k.data cpu) && paratick_get_idle (k.data cpu) then
             call Call.local_irq_restore
               (call (Call.tick_do_update_jiffies64 now) (call Call.local_irq_save k))
           else k
  call Call.touch_softlockup_watchdog_sched k

/-- The function `paratick_irq_exit()`. -/
def paratick_irq_exit (k : Kernel) : Kernel := call Call.sched_clock_idle_sleep_event k

/-- The function `paratick_paratick()`, the tick body, running on `cpu`. -/
def paratick_paratick (cpu : Nat) (e : Env) (k : Kernel) : Kernel :=
  let user := e.user
  let now := e.ktime
  let k := call Call.ktime_get k
  let k := if k.paratick_do_timer_cpu = TICK_DO_TIMER_NONE ∧ ¬ paratick_get_idle (k.data cpu) = true
           then { k with paratick_do_timer_cpu := (cpu : Int) } else k
  let k := if k.paratick_do_timer_cpu = (cpu : Int)
           then call (Call.tick_do_update_jiffies64 now) k else k
  paratick_update_process_times cpu e now user k

/-- The function `paratick_sched_timer(timer)`, the timer callback, running on `cpu`; the
boolean is `true` for `HRTIMER_RESTART` and `false` for `HRTIMER_NORESTART`. -/
def paratick_sched_timer (cpu : Nat) (e : Env) (k : Kernel) : Bool × Kernel :=
  let now := e.ktime
  let k := call Call.ktime_get k
  let r := paratick_next_event e now k
  let next_event := r.1
  let k := r.2
  if next_event < KTIME_MAX then
    let pd := k.data cpu
    let pd := { pd with timer := hrtimer_forward e.hrtimer_resolution pd.timer now next_event }
    (true, call (Call.hrtimer_forward cpu now next_event) (set_pd cpu pd k))
  else
    let k := set_pd cpu (paratick_set_timer (k.data cpu) false) k
    (false, call (Call.nohz_balance_enter_idle cpu) k)

/-- The function `handle_paratick_irq(desc)`, the installed IRQ handler, running on `cpu`. -/
def handle_paratick_irq (cpu : Nat) (e : Env) (k : Kernel) : Kernel :=
  call Call.ack_APIC_irq (paratick_paratick cpu e k)

/-- The function `setup_paratick_timer()` running on `cpu`. -/
def setup_paratick_timer (cpu : Nat) (k : Kernel) : Kernel :=
  let pd := k.data cpu
  let pd := { pd with timer := hrtimer_init pd.timer }
  let k := call (Call.hrtimer_init cpu) (set_pd cpu pd k)
  let pd := { pd with timer := { pd.timer with function_set := true } }
  set_pd cpu (paratick_set_init pd true) k

/-- One iteration of the `for (cpu = 0; cpu < NR_CPUS; cpu++)` loop of
`paratick_init`. -/
def init_cpu (now : Int) (k : Kernel) (cpu : Nat) : Kernel :=
  let k := { k with vector_irq := fun c => if c = cpu then true else k.vector_irq c }
  set_pd cpu { k.data cpu with last_tick := now } k

/-- The function `paratick_init()`. -/
def paratick_init (e : Env) (k : Kernel) : Kernel :=
  let now := e.ktime
  let k := call Call.ktime_get k
  let k := call Call.alloc_desc k
  (List.range e.NR_CPUS).foldl (init_cpu now) k

/-- Modelled from the spec: the expiry of the per-CPU timer as the kernel's
timer core (not under `src/`) runs it: a registered expiry is removed, the
callback runs, and the expiry is registered again when the callback asks for
a restart.  A timer without registered expiry or callback does not fire. -/
def timer_fires (cpu : Nat) (e : Env) (k : Kernel) : Kernel :=
  let pd := k.data cpu
  if pd.timer.enqueued ∧ pd.timer.function_set then
    let k := set_pd cpu { pd with timer := { pd.timer with enqueued := false } } k
    let r := paratick_sched_timer cpu e k
    let restart := r.1
    let k := r.2
    if restart then
      let pd := k.data cpu
      set_pd cpu { pd with timer := { pd.timer with enqueued := true } } k
    else k
  else k

/-! ## Execution traces -/

/-- The operations of the engine. -/
inductive Op where
  | paratick_init
  | setup_paratick_timer
  | paratick_enter_idle
  | paratick_start_idle
  | paratick_exit_idle
  | paratick_irq_enter
  | paratick_irq_exit
  | paratick_paratick
  | handle_paratick_irq
  | timer_fires
  deriving DecidableEq, Repr

/-- One whole operation, run on CPU `cpu` while the collaborators answer `env`. -/
structure Event where
  op : Op
  cpu : Nat
  env : Env

/-- Run one operation. -/
def step (k : Kernel) (ev : Event) : Kernel :=
  match ev.op with
  | Op.paratick_init => paratick_init ev.env k
  | Op.setup_paratick_timer => setup_paratick_timer ev.cpu k
  | Op.paratick_enter_idle => paratick_enter_idle ev.cpu k
  | Op.paratick_start_idle => paratick_start_idle ev.cpu ev.env k
  | Op.paratick_exit_idle => paratick_exit_idle ev.cpu k
  | Op.paratick_irq_enter => paratick_irq_enter ev.cpu ev.env k
  | Op.paratick_irq_exit => paratick_irq_exit k
  | Op.paratick_paratick => paratick_paratick ev.cpu ev.env k
  | Op.handle_paratick_irq => handle_paratick_irq ev.cpu ev.env k
  | Op.timer_fires => timer_fires ev.cpu ev.env k

/-- Run a trace of operations, one whole operation at a time. -/
def exec (k : Kernel) (evs : List Event) : Kernel := evs.foldl step k

/-! ## Concrete collaborator answers used in the examples -/

/-- Scenario 1 of the specification at `now = 1,000,000,000`: no veto,
`next_tmr = now + 100,000,000`, `next_rcu = now + 200,000,000`,
`max_deferment = 60,000,000`. -/
def env_distant : Env :=
  { ktime := 1000000000, rcu_needs_cpu := false, next_rcu := 1200000000,
    arch_needs_cpu := false, irq_work_needs_cpu := false, local_softirq_pending := 0,
    TIMER_SOFTIRQ := 1, next_tmr := 1100000000, max_deferment := 60000000,
    hrtimer_resolution := 1, user := 0, in_irq := true, CONFIG_POSIX_TIMERS := true,
    NR_CPUS := 4 }

/-- Scenario 3: as scenario 1, with a softirq pending (bit 3). -/
def env_softirq : Env := { env_distant with local_softirq_pending := 8 }

/-- As scenario 1, with a `max_deferment` of 1,000,000 ns, below the tick period. -/
def env_short_deferment : Env := { env_distant with max_deferment := 1000000 }

/-- The state after module load at time 1,000,000,000 on a 4-CPU machine: every
CPU has `last_tick = 1,000,000,000`. -/
def kernel_loaded : Kernel := paratick_init env_distant boot

/-- Whether a collaborator call is `tick_do_update_jiffies64`. -/
def is_jiffies_update : Call → Bool
  | Call.tick_do_update_jiffies64 _ => true
  | _ => false

/-- Whether a collaborator call is `account_process_tick`. -/
def is_account : Call → Bool
  | Call.account_process_tick _ => true
  | _ => false

/-- The calls `paratick_update_process_times` makes after the accounting pass. -/
def update_tail (e : Env) (user : Int) : List Call :=
  [Call.run_local_timers, Call.rcu_sched_clock_irq user]
    ++ (if e.in_irq then [Call.irq_work_tick] else [])
    ++ [Call.scheduler_tick]
    ++ (if e.CONFIG_POSIX_TIMERS then [Call.run_posix_cpu_timers] else [])
    ++ [Call.net_rand_state_add user]

/-- The timekeeper after the election step of the tick body on `cpu`. -/
def elected (cpu : Nat) (k : Kernel) : Int :=
  if k.paratick_do_timer_cpu = TICK_DO_TIMER_NONE ∧ ¬ paratick_get_idle (k.data cpu) = true
  then (cpu : Int) else k.paratick_do_timer_cpu

/-- What the operations other than the tick body and `paratick_init` do to the
data of a CPU: flags and timer may change, `last_tick` does not, and the
`in_idle` flag is only changed by idle entry and exit. -/
structure Keeps (pd pd2 : paratick_data) : Prop where
  last_tick : pd2.last_tick = pd.last_tick
  idle : paratick_get_idle pd2 = paratick_get_idle pd

/-- The invariant "an idle CPU is not the timekeeper". -/
def idle_not_timekeeper (k : Kernel) : Prop :=
  ∀ c : Nat, paratick_get_idle (k.data c) = true → k.paratick_do_timer_cpu ≠ (c : Int)

/-- A trace in which CPU 3 takes a tick at time 1,000,000,000 and then enters
idle, while CPU 1 takes a tick at 1,013,500,000. -/
def trace_example : List Event :=
  [ { op := Op.paratick_init, cpu := 0, env := env_distant },
    { op := Op.setup_paratick_timer, cpu := 3, env := env_distant },
    { op := Op.handle_paratick_irq, cpu := 3, env := env_distant },
    { op := Op.paratick_enter_idle, cpu := 3, env := env_distant },
    { op := Op.paratick_start_idle, cpu := 3, env := env_distant },
    { op := Op.handle_paratick_irq, cpu := 1, env := { env_distant with ktime := 1013500000 } } ]

/-- The collaborator calls of lines 128-136 of `paratick_next_event`. -/
def rest_calls (e : Env) (now : Int) : List Call :=
  if delta e now < TICK_PERIOD then [Call.timer_clear_idle] else []

/-- The collaborator calls of one run of `paratick_next_event(now)` while the
timekeeper id is `cpu_id`. -/
def oracle_calls (e : Env) (now : Int) (cpu_id : Int) : List Call :=
  veto_calls e ++
    (if veto e then [] else
      Call.get_next_timer_interrupt ::
        (if cpu_id = TICK_DO_TIMER_NONE then
          Call.timekeeping_max_deferment ::
            (if max_deadline e < delta e now then [] else rest_calls e now)
         else rest_calls e now))

/-- The case analysis of the specification, steps 3 to 6 of the oracle's
algorithm, applied in order to `deadline`, `delta` and the maximal deferment:
the deadline returned and whether `timer_clear_idle` is called. -/
def spec_next_event (timekeeper_none : Bool) (max_deferment deadline delta : Int) : Int × Bool :=
  if timekeeper_none = true ∧ max_deferment < delta then (max_deferment, false)
  else if delta < TICK_PERIOD then (TICK_PERIOD, true)
  else if deadline = KTIME_MAX then (KTIME_MAX, false)
  else (delta, false)

/-- Scenario 2 of the specification at `now = 1,000,000,000`: as scenario 1 with
`next_tmr = now + 1,500,000`. -/
def env_near : Env := { env_distant with next_tmr := 1001500000 }

/-- The three flags as a record of independent booleans. -/
structure FlagRecord where
  initialized : Bool
  in_idle : Bool
  timer_armed : Bool
  deriving DecidableEq, Repr

/-- The record a flag byte stands for. -/
def flag_record (f : Nat) : FlagRecord :=
  { initialized := paratick_get_flag f PARATICK_INIT_MASK,
    in_idle := paratick_get_flag f PARATICK_IDLE_MASK,
    timer_armed := paratick_get_flag f PARATICK_TIMER_MASK }

/-- Writing one field of the record: the field is chosen by its mask; a mask
that is none of the three changes nothing. -/
def FlagRecord.set (r : FlagRecord) (mask : Nat) (v : Bool) : FlagRecord :=
  if mask = PARATICK_INIT_MASK then { r with initialized := v }
  else if mask = PARATICK_IDLE_MASK then { r with in_idle := v }
  else if mask = PARATICK_TIMER_MASK then { r with timer_armed := v }
  else r

/-- The timer calls of `paratick_start_idle` for an oracle answer `next`, on a
CPU whose `timer_armed` flag is `armed`: arm, disarm, or nothing. -/
def start_idle_timer_calls (cpu : Nat) (now next : Int) (armed : Bool) : List Call :=
  if next < KTIME_MAX then
    [Call.hrtimer_cancel cpu, Call.hrtimer_set_expires cpu (wrap64 (now - 1)),
      Call.hrtimer_forward cpu now next, Call.hrtimer_start_expires cpu]
  else if armed then [Call.hrtimer_cancel cpu]
  else []

/-- The invariant "an armed CPU has a registered expiry". -/
def armed_is_registered (k : Kernel) : Prop :=
  ∀ c : Nat, paratick_get_timer (k.data c) = true → (k.data c).timer.enqueued = true

/-- Whether, along the trace run from `k`, `setup_paratick_timer` only ever runs
on a CPU whose `timer_armed` flag is clear (as when it runs once per CPU,
before the CPU first goes idle). -/
def setup_while_disarmed : Kernel → List Event → Bool
  | _, [] => true
  | k, ev :: evs =>
    (decide (ev.op ≠ Op.setup_paratick_timer) || !paratick_get_timer (k.data ev.cpu))
      && setup_while_disarmed (step k ev) evs

/-- A trace in which CPU 0 is set up, goes idle with its tick armed, and is then
set up a second time. -/
def trace_setup_twice : List Event :=
  [ { op := Op.paratick_init, cpu := 0, env := env_distant },
    { op := Op.setup_paratick_timer, cpu := 0, env := env_distant },
    { op := Op.paratick_enter_idle, cpu := 0, env := env_distant },
    { op := Op.paratick_start_idle, cpu := 0, env := env_distant },
    { op := Op.setup_paratick_timer, cpu := 0, env := env_distant } ]

/-- What one operation does to the pair (`timer_armed`, registered expiry) of a
CPU: it keeps both, or leaves the flag clear, or leaves an expiry registered. -/
def armed_step (pd pd2 : paratick_data) : Prop :=
  (paratick_get_timer pd2 = paratick_get_timer pd ∧ pd2.timer.enqueued = pd.timer.enqueued)
    ∨ paratick_get_timer pd2 = false
    ∨ pd2.timer.enqueued = true

/-- Whether `setup_paratick_timer` runs at most once on each CPU in the trace. -/
def setup_once : List Event → Bool
  | [] => true
  | ev :: evs =>
    (decide (ev.op ≠ Op.setup_paratick_timer)
        || evs.all (fun ev2 => decide (ev2.op ≠ Op.setup_paratick_timer ∨ ev2.cpu ≠ ev.cpu)))
      && setup_once evs

/-- The invariant "an armed CPU is initialized". -/
def armed_is_initialized (k : Kernel) : Prop :=
  ∀ c : Nat, paratick_get_timer (k.data c) = true → paratick_get_init (k.data c) = true

/-- The opening statements of `paratick_init`, before its loop: `ktime_get()` is
read into `now` and the IRQ descriptor is allocated. -/
def init_prologue (k : Kernel) : Kernel := call Call.alloc_desc (call Call.ktime_get k)

/-- The first statement of one iteration of the loop of `paratick_init`:
`(*descs)[PARATICK_IRQ_VECTOR] = desc` for `cpu`. From here on the tick body
can be delivered to `cpu`. -/
def init_install_vector (k : Kernel) (cpu : Nat) : Kernel :=
  { k with vector_irq := fun c => if c = cpu then true else k.vector_irq c }

/-- The second statement of one iteration of the loop of `paratick_init`:
`per_cpu(data, cpu).last_tick = now`, with the `now` read before the loop. -/
def init_store_last_tick (now : Int) (k : Kernel) (cpu : Nat) : Kernel :=
  set_pd cpu { k.data cpu with last_tick := now } k

/-- Module load at time 1,000,000,000 on the boot CPU, stopped inside the second
iteration of its loop: the vector of CPU 1 is installed, the `last_tick` of
CPU 1 is not yet stored. -/
def init_interrupted : Kernel :=
  init_install_vector (init_cpu 1000000000 (init_prologue boot) 0) 1

@[simp] theorem call_data (c : Call) (k : Kernel) : (call c k).data = k.data := rfl

@[simp] theorem call_cpu (c : Call) (k : Kernel) :
    (call c k).paratick_do_timer_cpu = k.paratick_do_timer_cpu := rfl

@[simp] theorem call_log (c : Call) (k : Kernel) : (call c k).log = k.log ++ [c] := rfl

@[simp] theorem calls_data (cs : List Call) (k : Kernel) : (calls cs k).data = k.data := rfl

@[simp] theorem calls_cpu (cs : List Call) (k : Kernel) :
    (calls cs k).paratick_do_timer_cpu = k.paratick_do_timer_cpu := rfl

@[simp] theorem calls_log (cs : List Call) (k : Kernel) : (calls cs k).log = k.log ++ cs := rfl

@[simp] theorem set_pd_cpu (cpu : Nat) (pd : paratick_data) (k : Kernel) :
    (set_pd cpu pd k).paratick_do_timer_cpu = k.paratick_do_timer_cpu := rfl

@[simp] theorem set_pd_log (cpu : Nat) (pd : paratick_data) (k : Kernel) :
    (set_pd cpu pd k).log = k.log := rfl

@[simp] theorem set_pd_data_self (cpu : Nat) (pd : paratick_data) (k : Kernel) :
    (set_pd cpu pd k).data cpu = pd := by simp [set_pd]

theorem set_pd_data (cpu c : Nat) (pd : paratick_data) (k : Kernel) :
    (set_pd cpu pd k).data c = if c = cpu then pd else k.data c := rfl

/-- The calls made since `k` when the log of `k2` extends the log of `k` by `cs`. -/
theorem calls_since_of_log (k k2 : Kernel) (cs : List Call) (h : k2.log = k.log ++ cs) :
    calls_since k k2 = cs := by
  unfold calls_since
  rw [h, List.drop_left]

/-! ## The flag byte -/

/-- Reading the flag of mask `2 ^ i` is reading bit `i` of the flag byte. -/
theorem get_flag_testBit (f i : Nat) : paratick_get_flag f (2 ^ i) = f.testBit i := by
  unfold paratick_get_flag
  rw [Nat.and_two_pow]
  cases h : f.testBit i
  · simp
  · simp

/-- Bit `j` of the flag byte after `paratick_set_flag` with mask `2 ^ i`. -/
theorem testBit_set_flag (f i j : Nat) (v : Bool) (hj : j < 8) :
    (paratick_set_flag f (2 ^ i) v).testBit j = if j = i then v else f.testBit j := by
  have h255 : Nat.testBit 255 j = true := by
    have : (255 : Nat) = 2 ^ 8 - 1 := by norm_num
    rw [this, Nat.testBit_two_pow_sub_one]
    simpa using hj
  unfold paratick_set_flag
  cases v
  · simp only [Bool.false_eq_true, if_false, Nat.testBit_and, Nat.testBit_xor,
      Nat.testBit_two_pow, h255]
    by_cases hji : j = i
    · simp [hji]
    · have : ¬ i = j := fun h => hji h.symm
      simp [hji, this]
  · simp only [if_true, Nat.testBit_or, Nat.testBit_two_pow]
    by_cases hji : j = i
    · simp [hji]
    · have : ¬ i = j := fun h => hji h.symm
      simp [hji, this]

/-- The packed byte behaves as independent booleans: after setting the flag of
mask `2 ^ i`, the flag of mask `2 ^ j` reads the new value when `j = i` and its
old value otherwise. -/
theorem get_set_flag (f i j : Nat) (v : Bool) (hj : j < 8) :
    paratick_get_flag (paratick_set_flag f (2 ^ i) v) (2 ^ j)
      = if j = i then v else paratick_get_flag f (2 ^ j) := by
  rw [get_flag_testBit, get_flag_testBit, testBit_set_flag f i j v hj]

@[simp] theorem get_idle_set_idle (pd : paratick_data) (v : Bool) :
    paratick_get_idle (paratick_set_idle pd v) = v := by
  have := get_set_flag pd.flags 1 1 v (by decide)
  simpa [paratick_get_idle, paratick_set_idle, PARATICK_IDLE_MASK] using this

@[simp] theorem get_init_set_idle (pd : paratick_data) (v : Bool) :
    paratick_get_init (paratick_set_idle pd v) = paratick_get_init pd := by
  have := get_set_flag pd.flags 1 0 v (by decide)
  simpa [paratick_get_init, paratick_set_idle, PARATICK_IDLE_MASK, PARATICK_INIT_MASK] using this

@[simp] theorem get_timer_set_idle (pd : paratick_data) (v : Bool) :
    paratick_get_timer (paratick_set_idle pd v) = paratick_get_timer pd := by
  have := get_set_flag pd.flags 1 2 v (by decide)
  simpa [paratick_get_timer, paratick_set_idle, PARATICK_IDLE_MASK, PARATICK_TIMER_MASK] using this

@[simp] theorem get_timer_set_timer (pd : paratick_data) (v : Bool) :
    paratick_get_timer (paratick_set_timer pd v) = v := by
  have := get_set_flag pd.flags 2 2 v (by decide)
  simpa [paratick_get_timer, paratick_set_timer, PARATICK_TIMER_MASK] using this

@[simp] theorem get_init_set_timer (pd : paratick_data) (v : Bool) :
    paratick_get_init (paratick_set_timer pd v) = paratick_get_init pd := by
  have := get_set_flag pd.flags 2 0 v (by decide)
  simpa [paratick_get_init, paratick_set_timer, PARATICK_TIMER_MASK, PARATICK_INIT_MASK] using this

@[simp] theorem get_idle_set_timer (pd : paratick_data) (v : Bool) :
    paratick_get_idle (paratick_set_timer pd v) = paratick_get_idle pd := by
  have := get_set_flag pd.flags 2 1 v (by decide)
  simpa [paratick_get_idle, paratick_set_timer, PARATICK_TIMER_MASK, PARATICK_IDLE_MASK] using this

@[simp] theorem get_init_set_init (pd : paratick_data) (v : Bool) :
    paratick_get_init (paratick_set_init pd v) = v := by
  have := get_set_flag pd.flags 0 0 v (by decide)
  simpa [paratick_get_init, paratick_set_init, PARATICK_INIT_MASK] using this

@[simp] theorem get_idle_set_init (pd : paratick_data) (v : Bool) :
    paratick_get_idle (paratick_set_init pd v) = paratick_get_idle pd := by
  have := get_set_flag pd.flags 0 1 v (by decide)
  simpa [paratick_get_idle, paratick_set_init, PARATICK_INIT_MASK, PARATICK_IDLE_MASK] using this

@[simp] theorem get_timer_set_init (pd : paratick_data) (v : Bool) :
    paratick_get_timer (paratick_set_init pd v) = paratick_get_timer pd := by
  have := get_set_flag pd.flags 0 2 v (by decide)
  simpa [paratick_get_timer, paratick_set_init, PARATICK_INIT_MASK, PARATICK_TIMER_MASK] using this

/-! ## The value returned by the oracle -/

/-- The deferral `paratick_next_event` returns, as one case analysis. -/
theorem next_event_value (e : Env) (now : Int) (k : Kernel) :
    (paratick_next_event e now k).1 =
      if veto e = true then TICK_PERIOD
      else if k.paratick_do_timer_cpu = TICK_DO_TIMER_NONE ∧ max_deadline e < delta e now
        then max_deadline e
      else if delta e now < TICK_PERIOD then TICK_PERIOD
      else if deadline e = KTIME_MAX then KTIME_MAX
      else delta e now := by
  unfold paratick_next_event next_event_rest
  by_cases hv : veto e = true
  · simp [hv]
  · by_cases ht : k.paratick_do_timer_cpu = TICK_DO_TIMER_NONE
    · by_cases hm : max_deadline e < delta e now
      · simp [hv, ht, hm]
      · simp only [hv, ht, hm, calls_cpu, call_cpu, if_true, if_false, and_false, and_true]
        split_ifs <;> rfl
    · simp only [hv, ht, calls_cpu, call_cpu, if_false, false_and]
      split_ifs <;> rfl

/-- C1. Veto dominance: whatever `now`, the timekeeper id, `max_deferment` and the
timer-wheel and RCU deadlines are, when at least one veto input is true
(`rcu_needs_cpu`, `arch_needs_cpu`, `irq_work_needs_cpu`, the timer softirq
pending, or any softirq pending) `paratick_next_event` returns `TICK_PERIOD`. -/
theorem veto_dominance (e : Env) (now : Int) (k : Kernel)
    (h : e.rcu_needs_cpu = true ∨ e.arch_needs_cpu = true ∨ e.irq_work_needs_cpu = true
          ∨ local_timer_softirq_pending e = true ∨ e.local_softirq_pending ≠ 0) :
    (paratick_next_event e now k).1 = TICK_PERIOD ∧ TICK_PERIOD = 4000000 := by
  have hv : veto e = true := by
    unfold veto
    rcases h with h | h | h | h | h
    · simp [h]
    · simp [h]
    · simp [h]
    · simp [h]
    · simp [h]
  rw [next_event_value, if_pos hv]
  exact ⟨rfl, rfl⟩

/-- Scenario 3 (a softirq is pending): the oracle answers 4,000,000. -/
theorem veto_dominance_witness :
    env_softirq.local_softirq_pending ≠ 0
      ∧ (paratick_next_event env_softirq 1000000000 boot).1 = 4000000 :=
  ⟨by decide,
   (veto_dominance env_softirq 1000000000 boot (Or.inr (Or.inr (Or.inr (Or.inr (by decide)))))).1⟩

/-- C2. Deferment clamp: without veto, when no CPU is timekeeper and the `delta`
the code computes exceeds `timekeeping_max_deferment()`, `paratick_next_event`
returns exactly that maximal deferment. -/
theorem deferment_clamp (e : Env) (now : Int) (k : Kernel)
    (hv : veto e = false)
    (hcpu : k.paratick_do_timer_cpu = TICK_DO_TIMER_NONE)
    (hd : max_deadline e < delta e now) :
    (paratick_next_event e now k).1 = max_deadline e := by
  rw [next_event_value]
  simp [hv, hcpu, hd]

/-- Scenario 1: `next_tmr = now + 100,000,000`, `next_rcu = now + 200,000,000`,
`max_deferment = 60,000,000`, no timekeeper: the oracle answers 60,000,000. -/
theorem deferment_clamp_witness :
    delta env_distant 1000000000 = 100000000
      ∧ (paratick_next_event env_distant 1000000000 boot).1 = 60000000 :=
  ⟨by decide, deferment_clamp env_distant 1000000000 boot (by decide) (by decide) (by decide)⟩

/-- Values in the signed 64-bit range are not changed by `wrap64`. -/
theorem wrap64_of_range (x : Int) (h1 : -9223372036854775808 ≤ x)
    (h2 : x < 9223372036854775808) : wrap64 x = x := by
  unfold wrap64
  norm_num
  rw [Int.emod_eq_of_lt (by omega) (by omega)]
  omega

/-- Values in the signed 32-bit range are not changed by `wrap32`. -/
theorem wrap32_of_range (x : Int) (h1 : -2147483648 ≤ x) (h2 : x < 2147483648) :
    wrap32 x = x := by
  unfold wrap32
  norm_num
  rw [Int.emod_eq_of_lt (by omega) (by omega)]
  omega

/-- The deferment clamp read over the mathematical integers: when the times are
ordinary monotonic times (`0 ≤ now`, the RCU deadline and the maximal
deferment at most `KTIME_MAX`), the clamp fires as soon as
`min(next_rcu, next_tmr) - now` exceeds the maximal deferment. -/
theorem deferment_clamp_in_range (e : Env) (now : Int) (k : Kernel)
    (hv : veto e = false)
    (hcpu : k.paratick_do_timer_cpu = TICK_DO_TIMER_NONE)
    (hnow : 0 ≤ now) (hnow2 : now ≤ KTIME_MAX)
    (hrcu : (e.next_rcu : Int) ≤ KTIME_MAX)
    (hmax : (e.max_deferment : Int) ≤ KTIME_MAX)
    (hd : (e.max_deferment : Int) < ((min e.next_rcu e.next_tmr : Nat) : Int) - now) :
    (paratick_next_event e now k).1 = (e.max_deferment : Int) := by
  have hK : KTIME_MAX = 9223372036854775807 := by norm_num [KTIME_MAX]
  rw [hK] at hnow2 hrcu hmax
  clear hK
  have hmd : max_deadline e = (e.max_deferment : Int) := by
    unfold max_deadline
    apply wrap64_of_range
    · omega
    · omega
  have hmin : ((if e.next_rcu < e.next_tmr then e.next_rcu else e.next_tmr : Nat) : Int)
      = ((min e.next_rcu e.next_tmr : Nat) : Int) := by
    split_ifs with h
    · rw [Nat.min_eq_left (Nat.le_of_lt h)]
    · rw [Nat.min_eq_right (Nat.le_of_not_lt h)]
  have hmle : ((min e.next_rcu e.next_tmr : Nat) : Int) ≤ 9223372036854775807 := by
    have : min e.next_rcu e.next_tmr ≤ e.next_rcu := Nat.min_le_left _ _
    omega
  have hdl : deadline e = ((min e.next_rcu e.next_tmr : Nat) : Int) := by
    unfold deadline
    rw [hmin]
    apply wrap64_of_range
    · omega
    · omega
  have hde : delta e now = ((min e.next_rcu e.next_tmr : Nat) : Int) - now := by
    unfold delta
    rw [hdl]
    apply wrap64_of_range
    · omega
    · omega
  have := deferment_clamp e now k hv hcpu (by rw [hmd, hde]; exact hd)
  rw [this, hmd]

/-- C3, as stated, fails: with no veto, no timekeeper, a computed `delta` of
100,000,000 and a maximal deferment of 1,000,000 the oracle returns 1,000,000,
which is smaller than `TICK_PERIOD`. -/
theorem tick_period_minimum_fails :
    veto env_short_deferment = false
      ∧ (paratick_next_event env_short_deferment 1000000000 boot).1 = 1000000
      ∧ ¬ TICK_PERIOD ≤ (paratick_next_event env_short_deferment 1000000000 boot).1 := by
  decide

/-- C3, amended. The deferral returned by `paratick_next_event` is at least
`TICK_PERIOD` on every input on which the deferment clamp does not return a
maximal deferment below `TICK_PERIOD` (that is, unless there is no veto, no
timekeeper, `max_deferment < delta` and `max_deferment < TICK_PERIOD`); and a
`delta` shorter than `TICK_PERIOD` that the clamp lets through is rounded up to
exactly `TICK_PERIOD`. -/
theorem tick_period_minimum_amended (e : Env) (now : Int) (k : Kernel)
    (h : ¬ (veto e = false ∧ k.paratick_do_timer_cpu = TICK_DO_TIMER_NONE
            ∧ max_deadline e < delta e now ∧ max_deadline e < TICK_PERIOD)) :
    TICK_PERIOD ≤ (paratick_next_event e now k).1
      ∧ (delta e now < TICK_PERIOD →
          ¬ (k.paratick_do_timer_cpu = TICK_DO_TIMER_NONE ∧ max_deadline e < delta e now) →
          (paratick_next_event e now k).1 = TICK_PERIOD) := by
  have hK : TICK_PERIOD ≤ KTIME_MAX := by norm_num [TICK_PERIOD, KTIME_MAX]
  rw [next_event_value]
  by_cases hv : veto e = true
  · rw [if_pos hv]
    exact ⟨le_refl _, fun _ _ => rfl⟩
  · have hvf : veto e = false := by simpa using hv
    rw [if_neg hv]
    by_cases hc : k.paratick_do_timer_cpu = TICK_DO_TIMER_NONE ∧ max_deadline e < delta e now
    · rw [if_pos hc]
      refine ⟨?_, fun _ hn => absurd hc hn⟩
      by_contra hlt
      exact h ⟨hvf, hc.1, hc.2, lt_of_not_le hlt⟩
    · rw [if_neg hc]
      refine ⟨?_, fun hd _ => if_pos hd⟩
      split_ifs with h1 h2
      · exact le_refl _
      · exact hK
      · exact le_of_not_lt h1

/-- With a timekeeper elected (CPU 2) and the timer wheel due in 1,500,000 ns the
deferral is rounded up to one full tick. -/
theorem tick_period_minimum_amended_witness :
    TICK_PERIOD ≤
        (paratick_next_event { env_distant with next_tmr := 1001500000 } 1000000000
          { boot with paratick_do_timer_cpu := 2 }).1
      ∧ (paratick_next_event { env_distant with next_tmr := 1001500000 } 1000000000
          { boot with paratick_do_timer_cpu := 2 }).1 = TICK_PERIOD :=
  have h := tick_period_minimum_amended { env_distant with next_tmr := 1001500000 } 1000000000
    { boot with paratick_do_timer_cpu := 2 } (by decide)
  ⟨h.1, h.2 (by decide) (by decide)⟩

/-! ## Accounting of elapsed ticks -/

/-- The loop makes `n` pairs of calls: `profile_tick` then `account_process_tick`. -/
theorem account_loop_eq (user : Int) (n : Nat) :
    account_loop user n
      = (List.replicate n [Call.profile_tick, Call.account_process_tick user]).flatten := by
  induction n with
  | zero => rfl
  | succ n ih => simp [account_loop, List.replicate_succ, ih]

theorem account_loop_count_account (user : Int) (n : Nat) :
    List.countP is_account (account_loop user n) = n := by
  induction n with
  | zero => rfl
  | succ n ih => simp [account_loop, is_account, ih]

theorem account_loop_count_profile (user : Int) (n : Nat) :
    List.count Call.profile_tick (account_loop user n) = n := by
  induction n with
  | zero => rfl
  | succ n ih => simp [account_loop, ih]

theorem account_loop_count_update (user : Int) (n : Nat) :
    List.countP is_jiffies_update (account_loop user n) = 0 := by
  induction n with
  | zero => rfl
  | succ n ih => simp [account_loop, is_jiffies_update, ih]

theorem account_log (cpu : Nat) (now user : Int) (k : Kernel) :
    (paratick_account_process_ticks cpu now user k).log
      = k.log ++ account_loop user (num_ticks now (k.data cpu).last_tick).toNat := rfl

theorem account_cpu (cpu : Nat) (now user : Int) (k : Kernel) :
    (paratick_account_process_ticks cpu now user k).paratick_do_timer_cpu
      = k.paratick_do_timer_cpu := rfl

theorem account_data (cpu c : Nat) (now user : Int) (k : Kernel) :
    (paratick_account_process_ticks cpu now user k).data c
      = if c = cpu then { k.data cpu with last_tick := now } else k.data c := rfl

/-- Within the range of the 32-bit counter, `num_ticks` is the floor of the
elapsed time over `TICK_PERIOD`. -/
theorem num_ticks_in_range (t0 t1 : Int) (hlt : t0 < t1)
    (hr : t1 - t0 < 8589934592000000) :
    num_ticks t1 t0 = (t1 - t0) / TICK_PERIOD := by
  unfold num_ticks
  have hw : wrap64 (t1 - t0) = t1 - t0 := by
    apply wrap64_of_range
    · omega
    · omega
  rw [hw, Int.tdiv_eq_ediv (by omega) (by norm_num [TICK_PERIOD])]
  have h0 : 0 ≤ (t1 - t0) / TICK_PERIOD :=
    Int.ediv_nonneg (by omega) (by norm_num [TICK_PERIOD])
  have h1 : (t1 - t0) / TICK_PERIOD < 2147483648 := by
    apply Int.ediv_lt_of_lt_mul (by norm_num [TICK_PERIOD])
    norm_num [TICK_PERIOD]
    omega
  apply wrap32_of_range
  · omega
  · omega

/-- Exact accounting while the 32-bit counter does not overflow: for
`t0 < t1` less than `2 ^ 31` tick periods apart, the accounting pass at
`now = t1` with `last_tick = t0` makes exactly `floor((t1 - t0) / TICK_PERIOD)`
pairs `profile_tick`, `account_process_tick`, and leaves `last_tick = t1`. -/
theorem exact_accounting_in_range (cpu : Nat) (user t0 t1 : Int) (k : Kernel)
    (hlast : (k.data cpu).last_tick = t0) (hlt : t0 < t1)
    (hr : t1 - t0 < 8589934592000000) :
    calls_since k (paratick_account_process_ticks cpu t1 user k)
        = (List.replicate ((t1 - t0) / TICK_PERIOD).toNat
            [Call.profile_tick, Call.account_process_tick user]).flatten
      ∧ List.countP is_account (calls_since k (paratick_account_process_ticks cpu t1 user k))
        = ((t1 - t0) / TICK_PERIOD).toNat
      ∧ ((paratick_account_process_ticks cpu t1 user k).data cpu).last_tick = t1 := by
  have hlog := calls_since_of_log k _ _ (account_log cpu t1 user k)
  rw [hlast, num_ticks_in_range t0 t1 hlt hr] at hlog
  rw [hlog]
  refine ⟨account_loop_eq _ _, account_loop_count_account _ _, ?_⟩
  rw [account_data, if_pos rfl]

/-- Scenario 5: `last_tick = 1,000,000,000`, the accounting pass runs at
`now = 1,013,500,000`: exactly 3 accounting calls, `last_tick = 1,013,500,000`. -/
theorem exact_accounting_in_range_witness :
    List.countP is_account
        (calls_since kernel_loaded (paratick_account_process_ticks 0 1013500000 0 kernel_loaded))
        = 3
      ∧ ((paratick_account_process_ticks 0 1013500000 0 kernel_loaded).data 0).last_tick
        = 1013500000 :=
  have h := exact_accounting_in_range 0 0 1000000000 1013500000 kernel_loaded
    (by decide) (by decide) (by decide)
  ⟨h.2.1, h.2.2⟩

/-- C4: the code at a failing input. With `last_tick = 1,000,000,000` and
`now = 8,589,935,592,000,000` (`2 ^ 31` tick periods later) the floor of the
quotient is 2,147,483,648, but the 32-bit `int num_ticks` holds
-2,147,483,648: the loop body never runs, neither in the accounting pass nor
in the whole tick body, and `last_tick` still becomes `now`. -/
theorem exact_accounting_int_overflow :
    (kernel_loaded.data 0).last_tick = 1000000000
      ∧ (8589935592000000 - 1000000000) / TICK_PERIOD = 2147483648
      ∧ num_ticks 8589935592000000 1000000000 = -2147483648
      ∧ calls_since kernel_loaded
          (paratick_account_process_ticks 0 8589935592000000 0 kernel_loaded) = []
      ∧ List.countP is_account
          (calls_since kernel_loaded
            (paratick_paratick 0 { env_distant with ktime := 8589935592000000 } kernel_loaded))
          = 0
      ∧ ((paratick_account_process_ticks 0 8589935592000000 0 kernel_loaded).data 0).last_tick
          = 8589935592000000 := by
  decide

/-! ## Idle entry and exit -/

/-- The per-CPU data after `paratick_enter_idle`. -/
theorem enter_idle_data (cpu c : Nat) (k : Kernel) :
    (paratick_enter_idle cpu k).data c
      = if c = cpu then paratick_set_idle (k.data cpu) true else k.data c := by
  unfold paratick_enter_idle
  by_cases h : k.paratick_do_timer_cpu = (cpu : Int)
  · simp [h, set_pd_data]
  · simp [h, set_pd_data]

theorem enter_idle_cpu (cpu : Nat) (k : Kernel) :
    (paratick_enter_idle cpu k).paratick_do_timer_cpu
      = (if k.paratick_do_timer_cpu = (cpu : Int) then TICK_DO_TIMER_NONE
         else k.paratick_do_timer_cpu) := by
  unfold paratick_enter_idle
  by_cases h : k.paratick_do_timer_cpu = (cpu : Int)
  · simp [h]
  · simp [h]

theorem enter_idle_log (cpu : Nat) (k : Kernel) :
    (paratick_enter_idle cpu k).log = k.log ++ [Call.sched_clock_idle_sleep_event] := by
  unfold paratick_enter_idle
  by_cases h : k.paratick_do_timer_cpu = (cpu : Int)
  · simp [h]
  · simp [h]

/-- C7. `paratick_enter_idle` on CPU `cpu` sets `in_idle`; sets the timekeeper to
none when it was `cpu` and leaves it unchanged otherwise; makes exactly one
collaborator call, `sched_clock_idle_sleep_event`; and programs no timer: the
`initialized` and `timer_armed` flags, the timer and `last_tick` of the CPU are
unchanged, as is the data of every other CPU. -/
theorem enter_idle_effects (cpu : Nat) (k : Kernel) :
    paratick_get_idle ((paratick_enter_idle cpu k).data cpu) = true
      ∧ (paratick_enter_idle cpu k).paratick_do_timer_cpu
          = (if k.paratick_do_timer_cpu = (cpu : Int) then TICK_DO_TIMER_NONE
             else k.paratick_do_timer_cpu)
      ∧ calls_since k (paratick_enter_idle cpu k) = [Call.sched_clock_idle_sleep_event]
      ∧ paratick_get_init ((paratick_enter_idle cpu k).data cpu) = paratick_get_init (k.data cpu)
      ∧ paratick_get_timer ((paratick_enter_idle cpu k).data cpu)
          = paratick_get_timer (k.data cpu)
      ∧ ((paratick_enter_idle cpu k).data cpu).timer = (k.data cpu).timer
      ∧ ((paratick_enter_idle cpu k).data cpu).last_tick = (k.data cpu).last_tick
      ∧ (∀ c, c ≠ cpu → (paratick_enter_idle cpu k).data c = k.data c) := by
  have hdata := enter_idle_data cpu
  refine ⟨?_, enter_idle_cpu cpu k, calls_since_of_log k _ _ (enter_idle_log cpu k),
    ?_, ?_, ?_, ?_, ?_⟩
  · rw [hdata, if_pos rfl, get_idle_set_idle]
  · rw [hdata, if_pos rfl, get_init_set_idle]
  · rw [hdata, if_pos rfl, get_timer_set_idle]
  · rw [hdata, if_pos rfl]; rfl
  · rw [hdata, if_pos rfl]; rfl
  · intro c hc
    rw [hdata, if_neg hc]

/-- Scenario 6: CPU 3 is timekeeper and enters idle: the timekeeper becomes none. -/
theorem enter_idle_effects_witness :
    (paratick_enter_idle 3 { kernel_loaded with paratick_do_timer_cpu := 3 }).paratick_do_timer_cpu
      = TICK_DO_TIMER_NONE :=
  (enter_idle_effects 3 { kernel_loaded with paratick_do_timer_cpu := 3 }).2.1

/-- The effect of `paratick_stop_tick` on the per-CPU data. -/
theorem stop_tick_data (cpu c : Nat) (k : Kernel) :
    (paratick_stop_tick cpu k).data c
      = if c = cpu then
          paratick_set_timer { k.data cpu with timer := hrtimer_cancel (k.data cpu).timer } false
        else k.data c := by
  unfold paratick_stop_tick
  by_cases h : c = cpu
  · simp [h, set_pd_data]
  · simp [h, set_pd_data]

theorem stop_tick_cpu (cpu : Nat) (k : Kernel) :
    (paratick_stop_tick cpu k).paratick_do_timer_cpu = k.paratick_do_timer_cpu := rfl

theorem stop_tick_log (cpu : Nat) (k : Kernel) :
    (paratick_stop_tick cpu k).log = k.log ++ [Call.hrtimer_cancel cpu] := rfl

/-- The per-CPU data after `paratick_exit_idle`. -/
theorem exit_idle_data (cpu c : Nat) (k : Kernel) :
    (paratick_exit_idle cpu k).data c
      = if c = cpu then
          (if paratick_get_timer (k.data cpu) then
            paratick_set_timer
              { paratick_set_idle (k.data cpu) false with
                timer := hrtimer_cancel (k.data cpu).timer } false
           else paratick_set_idle (k.data cpu) false)
        else k.data c := by
  unfold paratick_exit_idle
  by_cases h : c = cpu
  · subst h
    by_cases ht : paratick_get_timer (k.data c) = true
    · simp [ht, stop_tick_data]
      rfl
    · simp [ht]
  · by_cases ht : paratick_get_timer (k.data cpu) = true
    · simp [h, ht, stop_tick_data, set_pd_data]
    · simp [h, ht, set_pd_data]

theorem exit_idle_cpu (cpu : Nat) (k : Kernel) :
    (paratick_exit_idle cpu k).paratick_do_timer_cpu = k.paratick_do_timer_cpu := by
  unfold paratick_exit_idle
  by_cases ht : paratick_get_timer (k.data cpu) = true
  · simp [ht, stop_tick_cpu]
  · simp [ht]

theorem exit_idle_log (cpu : Nat) (k : Kernel) :
    (paratick_exit_idle cpu k).log
      = k.log ++ ([Call.local_irq_disable, Call.timer_clear_idle]
          ++ (if paratick_get_timer (k.data cpu) then [Call.hrtimer_cancel cpu] else [])
          ++ [Call.local_irq_enable]) := by
  unfold paratick_exit_idle
  by_cases ht : paratick_get_timer (k.data cpu) = true
  · simp [ht, stop_tick_log]
  · simp [ht]

/-- C9. Arm/disarm symmetry: after `paratick_exit_idle` on CPU `cpu`, whatever the
state before, `timer_armed` and `in_idle` are false; the timer is cancelled
(`hrtimer_cancel` is called, once) exactly when `timer_armed` was set on entry,
and is untouched otherwise; `timer_clear_idle` is called once; the
`initialized` flag, `last_tick` and the timekeeper id are unchanged. -/
theorem exit_idle_effects (cpu : Nat) (k : Kernel) :
    paratick_get_timer ((paratick_exit_idle cpu k).data cpu) = false
      ∧ paratick_get_idle ((paratick_exit_idle cpu k).data cpu) = false
      ∧ (Call.hrtimer_cancel cpu ∈ calls_since k (paratick_exit_idle cpu k)
          ↔ paratick_get_timer (k.data cpu) = true)
      ∧ List.count (Call.hrtimer_cancel cpu) (calls_since k (paratick_exit_idle cpu k))
          = (if paratick_get_timer (k.data cpu) then 1 else 0)
      ∧ ((paratick_exit_idle cpu k).data cpu).timer
          = (if paratick_get_timer (k.data cpu) then hrtimer_cancel (k.data cpu).timer
             else (k.data cpu).timer)
      ∧ List.count Call.timer_clear_idle (calls_since k (paratick_exit_idle cpu k)) = 1
      ∧ paratick_get_init ((paratick_exit_idle cpu k).data cpu) = paratick_get_init (k.data cpu)
      ∧ ((paratick_exit_idle cpu k).data cpu).last_tick = (k.data cpu).last_tick
      ∧ (paratick_exit_idle cpu k).paratick_do_timer_cpu = k.paratick_do_timer_cpu := by
  have hlog := calls_since_of_log k _ _ (exit_idle_log cpu k)
  have hd := exit_idle_data cpu cpu k
  rw [if_pos rfl] at hd
  rw [hlog, hd]
  by_cases ht : paratick_get_timer (k.data cpu) = true
  · simp only [ht, if_true]
    refine ⟨?_, ?_, ?_, ?_, ?_, ?_, ?_, ?_, ?_⟩
    · rw [get_timer_set_timer]
    · rw [get_idle_set_timer]
      exact get_idle_set_idle (k.data cpu) false
    · simp
    · simp
    · rfl
    · simp
    · rw [get_init_set_timer]
      exact get_init_set_idle (k.data cpu) false
    · rfl
    · exact exit_idle_cpu cpu k
  · have htf : paratick_get_timer (k.data cpu) = false := by simpa using ht
    simp only [htf, Bool.false_eq_true, if_false]
    refine ⟨?_, ?_, ?_, ?_, ?_, ?_, ?_, ?_, ?_⟩
    · rw [get_timer_set_idle]; exact htf
    · rw [get_idle_set_idle]
    · simp
    · simp
    · rfl
    · simp
    · rw [get_init_set_idle]
    · rfl
    · exact exit_idle_cpu cpu k

/-! ## The tick body -/

theorem update_tail_count_update (e : Env) (user : Int) :
    List.countP is_jiffies_update (update_tail e user) = 0 := by
  unfold update_tail
  cases e.in_irq <;> cases e.CONFIG_POSIX_TIMERS <;> simp [is_jiffies_update]

theorem update_tail_count_account (e : Env) (user : Int) :
    List.countP is_account (update_tail e user) = 0 := by
  unfold update_tail
  cases e.in_irq <;> cases e.CONFIG_POSIX_TIMERS <;> simp [is_account]

theorem update_process_times_log (cpu : Nat) (e : Env) (now user : Int) (k : Kernel) :
    (paratick_update_process_times cpu e now user k).log
      = k.log ++ (account_loop user (num_ticks now (k.data cpu).last_tick).toNat
          ++ update_tail e user) := by
  unfold paratick_update_process_times update_tail
  cases e.in_irq <;> cases e.CONFIG_POSIX_TIMERS <;> simp [account_log]

theorem update_process_times_cpu (cpu : Nat) (e : Env) (now user : Int) (k : Kernel) :
    (paratick_update_process_times cpu e now user k).paratick_do_timer_cpu
      = k.paratick_do_timer_cpu := by
  unfold paratick_update_process_times
  cases e.in_irq <;> cases e.CONFIG_POSIX_TIMERS <;> simp [account_cpu]

theorem update_process_times_data (cpu c : Nat) (e : Env) (now user : Int) (k : Kernel) :
    (paratick_update_process_times cpu e now user k).data c
      = if c = cpu then { k.data cpu with last_tick := now } else k.data c := by
  unfold paratick_update_process_times
  cases e.in_irq <;> cases e.CONFIG_POSIX_TIMERS <;> simp [account_data]

theorem tick_body_cpu (cpu : Nat) (e : Env) (k : Kernel) :
    (paratick_paratick cpu e k).paratick_do_timer_cpu = elected cpu k := by
  unfold paratick_paratick elected
  simp only [update_process_times_cpu, call_cpu, call_data]
  split_ifs <;> simp_all

theorem tick_body_data (cpu c : Nat) (e : Env) (k : Kernel) :
    (paratick_paratick cpu e k).data c
      = if c = cpu then { k.data cpu with last_tick := e.ktime } else k.data c := by
  unfold paratick_paratick
  simp only [update_process_times_data, call_data]
  split_ifs <;> simp_all

theorem tick_body_log (cpu : Nat) (e : Env) (k : Kernel) :
    (paratick_paratick cpu e k).log
      = k.log ++ ([Call.ktime_get]
          ++ (if elected cpu k = (cpu : Int) then [Call.tick_do_update_jiffies64 e.ktime] else [])
          ++ (account_loop e.user (num_ticks e.ktime (k.data cpu).last_tick).toNat
              ++ update_tail e e.user)) := by
  unfold paratick_paratick elected
  simp only [update_process_times_log, call_cpu, call_data, call_log]
  split_ifs <;> simp_all

/-- The number of `tick_do_update_jiffies64` calls of one tick body. -/
theorem tick_body_count_update (cpu : Nat) (e : Env) (k : Kernel) :
    List.countP is_jiffies_update (calls_since k (paratick_paratick cpu e k))
      = if elected cpu k = (cpu : Int) then 1 else 0 := by
  rw [calls_since_of_log k _ _ (tick_body_log cpu e k)]
  simp only [List.countP_append, account_loop_count_update, update_tail_count_update]
  split_ifs <;> simp [is_jiffies_update]

/-- C8. Timekeeper election in the tick body on CPU `cpu`: when the timekeeper is
none and the CPU is not idle, the timekeeper becomes `cpu` and
`tick_do_update_jiffies64(now)` is invoked exactly once; when the timekeeper is
already `cpu` it stays `cpu` and the update is invoked exactly once; in every
other case the timekeeper is unchanged and the update is not invoked. -/
theorem timekeeper_election (cpu : Nat) (e : Env) (k : Kernel) :
    (k.paratick_do_timer_cpu = TICK_DO_TIMER_NONE ∧ paratick_get_idle (k.data cpu) = false →
        (paratick_paratick cpu e k).paratick_do_timer_cpu = (cpu : Int)
        ∧ List.countP is_jiffies_update (calls_since k (paratick_paratick cpu e k)) = 1
        ∧ Call.tick_do_update_jiffies64 e.ktime ∈ calls_since k (paratick_paratick cpu e k))
      ∧ (k.paratick_do_timer_cpu = (cpu : Int) →
        (paratick_paratick cpu e k).paratick_do_timer_cpu = (cpu : Int)
        ∧ List.countP is_jiffies_update (calls_since k (paratick_paratick cpu e k)) = 1
        ∧ Call.tick_do_update_jiffies64 e.ktime ∈ calls_since k (paratick_paratick cpu e k))
      ∧ (k.paratick_do_timer_cpu ≠ (cpu : Int) →
        ¬ (k.paratick_do_timer_cpu = TICK_DO_TIMER_NONE
            ∧ paratick_get_idle (k.data cpu) = false) →
        (paratick_paratick cpu e k).paratick_do_timer_cpu = k.paratick_do_timer_cpu
        ∧ List.countP is_jiffies_update (calls_since k (paratick_paratick cpu e k)) = 0) := by
  have hnone : TICK_DO_TIMER_NONE ≠ (cpu : Int) := by
    unfold TICK_DO_TIMER_NONE
    omega
  have hmem : elected cpu k = (cpu : Int) →
      Call.tick_do_update_jiffies64 e.ktime ∈ calls_since k (paratick_paratick cpu e k) := by
    intro h
    rw [calls_since_of_log k _ _ (tick_body_log cpu e k), if_pos h]
    simp
  refine ⟨?_, ?_, ?_⟩
  · rintro ⟨h1, h2⟩
    have hel : elected cpu k = (cpu : Int) := by
      unfold elected
      rw [if_pos ⟨h1, by simp [h2]⟩]
    exact ⟨by rw [tick_body_cpu, hel], by rw [tick_body_count_update, if_pos hel], hmem hel⟩
  · intro h
    have hel : elected cpu k = (cpu : Int) := by
      unfold elected
      rw [if_neg (fun hc => hnone (hc.1.symm.trans h)), h]
    exact ⟨by rw [tick_body_cpu, hel], by rw [tick_body_count_update, if_pos hel], hmem hel⟩
  · intro h1 h2
    have hel : elected cpu k = k.paratick_do_timer_cpu := by
      unfold elected
      rw [if_neg (fun hc => h2 ⟨hc.1, by simpa using hc.2⟩)]
    exact ⟨by rw [tick_body_cpu, hel],
      by rw [tick_body_count_update, hel, if_neg h1]⟩

/-- Scenario 4: no timekeeper, the tick fires on CPU 3, which is not idle:
afterwards CPU 3 is timekeeper and `tick_do_update_jiffies64` was invoked once. -/
theorem timekeeper_election_witness :
    kernel_loaded.paratick_do_timer_cpu = TICK_DO_TIMER_NONE
      ∧ paratick_get_idle (kernel_loaded.data 3) = false
      ∧ (paratick_paratick 3 env_distant kernel_loaded).paratick_do_timer_cpu = 3
      ∧ List.countP is_jiffies_update
          (calls_since kernel_loaded (paratick_paratick 3 env_distant kernel_loaded)) = 1 :=
  have h := (timekeeper_election 3 env_distant kernel_loaded).1 ⟨by decide, by decide⟩
  ⟨by decide, by decide, h.1, h.2.1⟩

/-! ## IRQ entry -/

theorem irq_enter_log (cpu : Nat) (e : Env) (k : Kernel) :
    (paratick_irq_enter cpu e k).log
      = k.log ++ (if (paratick_get_init (k.data cpu) && paratick_get_idle (k.data cpu)) = true
          then [Call.ktime_get, Call.local_irq_save, Call.tick_do_update_jiffies64 e.ktime,
                Call.local_irq_restore, Call.touch_softlockup_watchdog_sched]
          else [Call.ktime_get, Call.touch_softlockup_watchdog_sched]) := by
  unfold paratick_irq_enter
  simp only [call_data]
  split_ifs <;> simp

theorem irq_enter_data (cpu : Nat) (e : Env) (k : Kernel) :
    (paratick_irq_enter cpu e k).data = k.data := by
  unfold paratick_irq_enter
  simp only [call_data]
  split_ifs <;> simp

theorem irq_enter_cpu (cpu : Nat) (e : Env) (k : Kernel) :
    (paratick_irq_enter cpu e k).paratick_do_timer_cpu = k.paratick_do_timer_cpu := by
  unfold paratick_irq_enter
  simp only [call_data]
  split_ifs <;> simp

/-- C10, as stated, fails: CPU 0 entered idle before its `setup_paratick_timer`
ran, so `in_idle` is set and `initialized` is not; `paratick_irq_enter` then
does not invoke `tick_do_update_jiffies64`. -/
theorem irq_catch_up_fails :
    paratick_get_idle ((paratick_enter_idle 0 kernel_loaded).data 0) = true
      ∧ List.countP is_jiffies_update
          (calls_since (paratick_enter_idle 0 kernel_loaded)
            (paratick_irq_enter 0 env_distant (paratick_enter_idle 0 kernel_loaded))) = 0
      ∧ calls_since (paratick_enter_idle 0 kernel_loaded)
          (paratick_irq_enter 0 env_distant (paratick_enter_idle 0 kernel_loaded))
          = [Call.ktime_get, Call.touch_softlockup_watchdog_sched] := by
  decide

/-- C10, amended. Catch-up on IRQ: on a CPU whose `initialized` and `in_idle`
flags are both set, `paratick_irq_enter` invokes `tick_do_update_jiffies64`
exactly once, with the `now` it read, before petting the soft-lockup watchdog
and returning; on a CPU that is not idle it does not invoke
`tick_do_update_jiffies64`, nor on a CPU that is not initialized; it pets the
watchdog in every case. -/
theorem irq_catch_up_amended (cpu : Nat) (e : Env) (k : Kernel) :
    (paratick_get_init (k.data cpu) = true → paratick_get_idle (k.data cpu) = true →
        calls_since k (paratick_irq_enter cpu e k)
          = [Call.ktime_get, Call.local_irq_save, Call.tick_do_update_jiffies64 e.ktime,
             Call.local_irq_restore, Call.touch_softlockup_watchdog_sched]
        ∧ List.countP is_jiffies_update (calls_since k (paratick_irq_enter cpu e k)) = 1)
      ∧ (paratick_get_idle (k.data cpu) = false →
        calls_since k (paratick_irq_enter cpu e k)
          = [Call.ktime_get, Call.touch_softlockup_watchdog_sched]
        ∧ List.countP is_jiffies_update (calls_since k (paratick_irq_enter cpu e k)) = 0)
      ∧ (paratick_get_init (k.data cpu) = false →
        List.countP is_jiffies_update (calls_since k (paratick_irq_enter cpu e k)) = 0)
      ∧ Call.touch_softlockup_watchdog_sched ∈ calls_since k (paratick_irq_enter cpu e k) := by
  rw [calls_since_of_log k _ _ (irq_enter_log cpu e k)]
  refine ⟨?_, ?_, ?_, ?_⟩
  · intro h1 h2
    simp [h1, h2, is_jiffies_update]
  · intro h2
    simp [h2, is_jiffies_update]
  · intro h1
    simp [h1, is_jiffies_update]
  · split_ifs <;> simp

/-- CPU 0 is set up and enters idle; an IRQ arrives: one wall-clock update. -/
theorem irq_catch_up_amended_witness :
    paratick_get_init ((paratick_enter_idle 0 (setup_paratick_timer 0 kernel_loaded)).data 0) = true
      ∧ paratick_get_idle
          ((paratick_enter_idle 0 (setup_paratick_timer 0 kernel_loaded)).data 0) = true
      ∧ List.countP is_jiffies_update
          (calls_since (paratick_enter_idle 0 (setup_paratick_timer 0 kernel_loaded))
            (paratick_irq_enter 0 env_distant
              (paratick_enter_idle 0 (setup_paratick_timer 0 kernel_loaded)))) = 1 :=
  ⟨by decide, by decide,
   ((irq_catch_up_amended 0 env_distant
      (paratick_enter_idle 0 (setup_paratick_timer 0 kernel_loaded))).1
      (by decide) (by decide)).2⟩

/-! ## Frame facts: what each operation leaves alone -/

theorem next_event_rest_data (e : Env) (now : Int) (k : Kernel) :
    (next_event_rest e now k).2.data = k.data := by
  unfold next_event_rest
  split_ifs <;> rfl

theorem next_event_rest_cpu (e : Env) (now : Int) (k : Kernel) :
    (next_event_rest e now k).2.paratick_do_timer_cpu = k.paratick_do_timer_cpu := by
  unfold next_event_rest
  split_ifs <;> rfl

theorem next_event_data (e : Env) (now : Int) (k : Kernel) :
    (paratick_next_event e now k).2.data = k.data := by
  unfold paratick_next_event
  simp only [calls_cpu, call_cpu]
  split_ifs <;> simp [next_event_rest_data]

theorem next_event_cpu (e : Env) (now : Int) (k : Kernel) :
    (paratick_next_event e now k).2.paratick_do_timer_cpu = k.paratick_do_timer_cpu := by
  unfold paratick_next_event
  simp only [calls_cpu, call_cpu]
  split_ifs <;> simp [next_event_rest_cpu]

/-- The per-CPU data after `paratick_start_tick`. -/
theorem start_tick_data (cpu c : Nat) (e : Env) (now d : Int) (k : Kernel) :
    (paratick_start_tick cpu e now d k).data c
      = if c = cpu then
          { paratick_set_timer (k.data cpu) true with
            timer := hrtimer_start_expires
              (hrtimer_forward e.hrtimer_resolution
                (hrtimer_set_expires (hrtimer_cancel (k.data cpu).timer) (wrap64 (now - 1)))
                now d) }
        else k.data c := by
  unfold paratick_start_tick
  by_cases h : c = cpu
  · simp [h, set_pd_data]
    rfl
  · simp [h, set_pd_data]

theorem start_tick_cpu (cpu : Nat) (e : Env) (now d : Int) (k : Kernel) :
    (paratick_start_tick cpu e now d k).paratick_do_timer_cpu = k.paratick_do_timer_cpu := rfl

theorem Keeps.refl (pd : paratick_data) : Keeps pd pd := ⟨rfl, rfl⟩

theorem Keeps.trans {a b c : paratick_data} (h1 : Keeps a b) (h2 : Keeps b c) : Keeps a c :=
  ⟨h2.last_tick.trans h1.last_tick, h2.idle.trans h1.idle⟩

theorem keeps_set_timer (pd : paratick_data) (v : Bool) : Keeps pd (paratick_set_timer pd v) :=
  ⟨rfl, get_idle_set_timer pd v⟩

theorem keeps_set_init (pd : paratick_data) (v : Bool) : Keeps pd (paratick_set_init pd v) :=
  ⟨rfl, get_idle_set_init pd v⟩

theorem keeps_timer (pd : paratick_data) (t : hrtimer) : Keeps pd { pd with timer := t } :=
  ⟨rfl, rfl⟩

theorem start_tick_keeps (cpu c : Nat) (e : Env) (now d : Int) (k : Kernel) :
    Keeps (k.data c) ((paratick_start_tick cpu e now d k).data c) := by
  rw [start_tick_data]
  split_ifs with h
  · subst h
    exact (keeps_set_timer _ true).trans (keeps_timer _ _)
  · exact Keeps.refl _

theorem stop_tick_keeps (cpu c : Nat) (k : Kernel) :
    Keeps (k.data c) ((paratick_stop_tick cpu k).data c) := by
  rw [stop_tick_data]
  split_ifs with h
  · subst h
    exact (keeps_timer _ _).trans (keeps_set_timer _ false)
  · exact Keeps.refl _

@[simp] theorem ite_call_data (p : Prop) [Decidable p] (c : Call) (k : Kernel) :
    (if p then call c k else k).data = k.data := by
  split_ifs <;> rfl

@[simp] theorem ite_call_cpu (p : Prop) [Decidable p] (c : Call) (k : Kernel) :
    (if p then call c k else k).paratick_do_timer_cpu = k.paratick_do_timer_cpu := by
  split_ifs <;> rfl

theorem start_idle_keeps (cpu c : Nat) (e : Env) (k : Kernel) :
    Keeps (k.data c) ((paratick_start_idle cpu e k).data c) := by
  unfold paratick_start_idle
  have hd := next_event_data e e.ktime (call Call.ktime_get (call Call.local_irq_disable k))
  simp only [call_data] at hd
  by_cases hi : paratick_get_init (k.data cpu) = true
  · rw [if_pos hi]
    simp only [call_data, ite_call_data]
    split_ifs with h1 h2
    · have := start_tick_keeps cpu c e e.ktime
        (paratick_next_event e e.ktime (call Call.ktime_get (call Call.local_irq_disable k))).1
        (paratick_next_event e e.ktime (call Call.ktime_get (call Call.local_irq_disable k))).2
      rwa [hd] at this
    · have := stop_tick_keeps cpu c
        (paratick_next_event e e.ktime (call Call.ktime_get (call Call.local_irq_disable k))).2
      rwa [hd] at this
    · rw [hd]
      exact Keeps.refl _
  · rw [if_neg hi]
    exact Keeps.refl _

theorem start_idle_cpu (cpu : Nat) (e : Env) (k : Kernel) :
    (paratick_start_idle cpu e k).paratick_do_timer_cpu = k.paratick_do_timer_cpu := by
  unfold paratick_start_idle
  have hd := next_event_cpu e e.ktime (call Call.ktime_get (call Call.local_irq_disable k))
  simp only [call_cpu] at hd
  by_cases hi : paratick_get_init (k.data cpu) = true
  · rw [if_pos hi]
    simp only [call_cpu, ite_call_cpu]
    split_ifs
    · rw [start_tick_cpu, hd]
    · rw [stop_tick_cpu, hd]
    · rw [hd]
  · rw [if_neg hi]

theorem sched_timer_keeps (cpu c : Nat) (e : Env) (k : Kernel) :
    Keeps (k.data c) ((paratick_sched_timer cpu e k).2.data c) := by
  unfold paratick_sched_timer
  have hd := next_event_data e e.ktime (call Call.ktime_get k)
  simp only [call_data] at hd
  simp only []
  split_ifs with h1
  · simp only [call_data, set_pd_data, hd]
    split_ifs with h
    · subst h
      exact keeps_timer _ _
    · exact Keeps.refl _
  · simp only [call_data, set_pd_data, hd]
    split_ifs with h
    · subst h
      exact keeps_set_timer _ _
    · exact Keeps.refl _

theorem sched_timer_cpu (cpu : Nat) (e : Env) (k : Kernel) :
    (paratick_sched_timer cpu e k).2.paratick_do_timer_cpu = k.paratick_do_timer_cpu := by
  unfold paratick_sched_timer
  have hd := next_event_cpu e e.ktime (call Call.ktime_get k)
  simp only [call_cpu] at hd
  simp only []
  split_ifs <;> simp [hd]

theorem timer_fires_keeps (cpu c : Nat) (e : Env) (k : Kernel) :
    Keeps (k.data c) ((timer_fires cpu e k).data c) := by
  unfold timer_fires
  simp only []
  have h0 : Keeps (k.data c)
      ((set_pd cpu { k.data cpu with timer := { (k.data cpu).timer with enqueued := false } }
          k).data c) := by
    rw [set_pd_data]
    split_ifs with h
    · subst h
      exact keeps_timer _ _
    · exact Keeps.refl _
  split_ifs with h1 h2
  · refine (h0.trans (sched_timer_keeps cpu c e _)).trans ?_
    rw [set_pd_data]
    split_ifs with h
    · subst h
      exact keeps_timer _ _
    · exact Keeps.refl _
  · exact h0.trans (sched_timer_keeps cpu c e _)
  · exact Keeps.refl _

theorem timer_fires_cpu (cpu : Nat) (e : Env) (k : Kernel) :
    (timer_fires cpu e k).paratick_do_timer_cpu = k.paratick_do_timer_cpu := by
  unfold timer_fires
  simp only []
  split_ifs <;> simp [sched_timer_cpu]

theorem setup_keeps (cpu c : Nat) (k : Kernel) :
    Keeps (k.data c) ((setup_paratick_timer cpu k).data c) := by
  unfold setup_paratick_timer
  simp only [set_pd_data, call_data]
  split_ifs with h
  · subst h
    exact (keeps_timer (k.data c) _).trans ((keeps_timer _ _).trans (keeps_set_init _ true))
  · exact Keeps.refl _

theorem setup_cpu (cpu : Nat) (k : Kernel) :
    (setup_paratick_timer cpu k).paratick_do_timer_cpu = k.paratick_do_timer_cpu := rfl

/-- The `for` loop of `paratick_init` over the first `n` CPUs. -/
theorem init_loop_data (now : Int) (n c : Nat) (k : Kernel) :
    ((List.range n).foldl (init_cpu now) k).data c
      = if c < n then { k.data c with last_tick := now } else k.data c := by
  induction n with
  | zero => simp
  | succ n ih =>
    rw [List.range_succ, List.foldl_append]
    simp only [List.foldl_cons, List.foldl_nil, init_cpu, set_pd_data]
    by_cases h : c = n
    · subst h
      simp [ih]
    · rw [if_neg h, ih]
      by_cases h2 : c < n
      · rw [if_pos h2, if_pos (by omega)]
      · rw [if_neg h2, if_neg (by omega)]

theorem init_loop_cpu (now : Int) (n : Nat) (k : Kernel) :
    ((List.range n).foldl (init_cpu now) k).paratick_do_timer_cpu = k.paratick_do_timer_cpu := by
  induction n with
  | zero => rfl
  | succ n ih =>
    rw [List.range_succ, List.foldl_append]
    simp only [List.foldl_cons, List.foldl_nil, init_cpu, set_pd_cpu]
    exact ih

theorem init_data (e : Env) (c : Nat) (k : Kernel) :
    (paratick_init e k).data c
      = if c < e.NR_CPUS then { k.data c with last_tick := e.ktime } else k.data c := by
  unfold paratick_init
  rw [init_loop_data]
  rfl

theorem init_cpu_id (e : Env) (k : Kernel) :
    (paratick_init e k).paratick_do_timer_cpu = k.paratick_do_timer_cpu := by
  unfold paratick_init
  rw [init_loop_cpu]
  rfl

/-! ## Invariants along execution traces -/

theorem tick_body_keeps_idle (cpu c : Nat) (e : Env) (k : Kernel) :
    paratick_get_idle ((paratick_paratick cpu e k).data c) = paratick_get_idle (k.data c) := by
  rw [tick_body_data]
  split_ifs with h
  · subst h; rfl
  · rfl

theorem init_keeps_idle (e : Env) (c : Nat) (k : Kernel) :
    paratick_get_idle ((paratick_init e k).data c) = paratick_get_idle (k.data c) := by
  rw [init_data]
  split_ifs <;> rfl

/-- One operation preserves "an idle CPU is not the timekeeper". -/
theorem step_idle_not_timekeeper (k : Kernel) (ev : Event) (h : idle_not_timekeeper k) :
    idle_not_timekeeper (step k ev) := by
  obtain ⟨op, cpu, e⟩ := ev
  intro c hc
  have hnone : TICK_DO_TIMER_NONE ≠ (c : Int) := by
    unfold TICK_DO_TIMER_NONE
    omega
  have tick : paratick_get_idle ((paratick_paratick cpu e k).data c) = true →
      (paratick_paratick cpu e k).paratick_do_timer_cpu ≠ (c : Int) := by
    intro hc
    rw [tick_body_keeps_idle] at hc
    rw [tick_body_cpu]
    unfold elected
    split_ifs with hel
    · intro heq
      have : cpu = c := by exact_mod_cast heq
      subst this
      exact hel.2 hc
    · exact h c hc
  cases op <;> simp only [step] at hc ⊢
  · rw [init_keeps_idle] at hc
    rw [init_cpu_id]
    exact h c hc
  · rw [(setup_keeps cpu c k).idle] at hc
    rw [setup_cpu]
    exact h c hc
  · rw [enter_idle_cpu]
    rw [enter_idle_data] at hc
    split_ifs with h1
    · exact hnone
    · split_ifs at hc with h2
      · subst h2
        exact h1
      · exact h c hc
  · rw [(start_idle_keeps cpu c e k).idle] at hc
    rw [start_idle_cpu]
    exact h c hc
  · rw [exit_idle_cpu]
    rw [exit_idle_data] at hc
    split_ifs at hc with h1 h2
    · rw [get_idle_set_timer] at hc
      have := get_idle_set_idle (k.data cpu) false
      rw [show paratick_get_idle
            { paratick_set_idle (k.data cpu) false with
              timer := hrtimer_cancel (k.data cpu).timer }
          = paratick_get_idle (paratick_set_idle (k.data cpu) false) from rfl, this] at hc
      exact absurd hc (by decide)
    · rw [get_idle_set_idle] at hc
      exact absurd hc (by decide)
    · exact h c hc
  · rw [irq_enter_data] at hc
    rw [irq_enter_cpu]
    exact h c hc
  · exact h c hc
  · exact tick hc
  · exact tick hc
  · rw [(timer_fires_keeps cpu c e k).idle] at hc
    rw [timer_fires_cpu]
    exact h c hc

theorem exec_cons (k : Kernel) (ev : Event) (evs : List Event) :
    exec k (ev :: evs) = exec (step k ev) evs := rfl

theorem exec_idle_not_timekeeper (evs : List Event) (k : Kernel) (h : idle_not_timekeeper k) :
    idle_not_timekeeper (exec k evs) := by
  induction evs generalizing k with
  | nil => exact h
  | cons ev evs ih => exact ih (step k ev) (step_idle_not_timekeeper k ev h)

/-- C6. Idle CPUs are never timekeeper: from the initial state (no timekeeper, all
flags clear), after any sequence of operations, each run as a whole on any
CPU, every CPU `c` whose `in_idle` flag is set is not `paratick_do_timer_cpu`. -/
theorem idle_cpu_never_timekeeper (evs : List Event) (c : Nat)
    (hidle : paratick_get_idle ((exec boot evs).data c) = true) :
    (exec boot evs).paratick_do_timer_cpu ≠ (c : Int) := by
  have h0 : idle_not_timekeeper boot := by
    intro c hc
    simp [boot, paratick_get_idle, paratick_get_flag] at hc
  exact exec_idle_not_timekeeper evs boot h0 c hidle

set_option maxRecDepth 100000 in
/-- CPU 3 became timekeeper at its tick and then entered idle: afterwards it is
idle and the timekeeper is none. -/
theorem idle_cpu_never_timekeeper_witness :
    paratick_get_idle ((exec boot trace_example).data 3) = true
      ∧ (exec boot trace_example).paratick_do_timer_cpu ≠ ((3 : Nat) : Int) :=
  ⟨by decide, idle_cpu_never_timekeeper trace_example 3 (by decide)⟩

theorem exec_append (k : Kernel) (pre post : List Event) :
    exec k (pre ++ post) = exec (exec k pre) post := by
  unfold exec
  rw [List.foldl_append]

/-- One iteration of the loop of `paratick_init` is its two statements in order. -/
theorem init_cpu_statements (now : Int) (k : Kernel) (cpu : Nat) :
    init_cpu now k cpu = init_store_last_tick now (init_install_vector k cpu) cpu := rfl

/-- The function `paratick_init` is its prologue followed by the loop. -/
theorem init_is_prologue_then_loop (e : Env) (k : Kernel) :
    paratick_init e k = (List.range e.NR_CPUS).foldl (init_cpu e.ktime) (init_prologue k) := rfl

set_option maxRecDepth 100000 in
/-- Run without interruption, the statements of the interleaved run below are
`paratick_init` itself: same per-CPU data, same timekeeper, same vectors. -/
theorem init_uninterrupted :
    (∀ c, c < 5 →
        (([2, 3].foldl (init_cpu 1000000000)
            (init_store_last_tick 1000000000 init_interrupted 1)).data c
          = (paratick_init env_distant boot).data c)
        ∧ (([2, 3].foldl (init_cpu 1000000000)
            (init_store_last_tick 1000000000 init_interrupted 1)).vector_irq c
          = (paratick_init env_distant boot).vector_irq c))
      ∧ ([2, 3].foldl (init_cpu 1000000000)
          (init_store_last_tick 1000000000 init_interrupted 1)).log
        = (paratick_init env_distant boot).log := by
  decide

/-- Setting a flag twice to the same value is setting it once. -/
theorem set_flag_idem (f m : Nat) (v : Bool) :
    paratick_set_flag (paratick_set_flag f m v) m v = paratick_set_flag f m v := by
  unfold paratick_set_flag
  cases v
  · simp only [Bool.false_eq_true, if_false]
    rw [Nat.land_assoc, Nat.and_self]
  · simp only [if_true]
    rw [Nat.lor_assoc, Nat.or_self]

/-- C19. The packed flag byte behaves as a record of three independent booleans:
for every flag byte `f`, every mask `m` among `PARATICK_INIT_MASK`,
`PARATICK_IDLE_MASK` and `PARATICK_TIMER_MASK`, and every boolean `v`, after
`paratick_set_flag(m, v)` the flag `m` reads `v`, each of the other two flags
reads what it read before, setting the same value twice equals setting it
once, and the record the byte stands for is the old record with the field of
`m` written. -/
theorem flags_are_a_record (f m : Nat) (v : Bool)
    (hm : m = PARATICK_INIT_MASK ∨ m = PARATICK_IDLE_MASK ∨ m = PARATICK_TIMER_MASK) :
    paratick_get_flag (paratick_set_flag f m v) m = v
      ∧ (∀ m2, (m2 = PARATICK_INIT_MASK ∨ m2 = PARATICK_IDLE_MASK ∨ m2 = PARATICK_TIMER_MASK) →
          m2 ≠ m → paratick_get_flag (paratick_set_flag f m v) m2 = paratick_get_flag f m2)
      ∧ paratick_set_flag (paratick_set_flag f m v) m v = paratick_set_flag f m v
      ∧ flag_record (paratick_set_flag f m v) = (flag_record f).set m v := by
  have e0 : PARATICK_INIT_MASK = 1 := rfl
  have e1 : PARATICK_IDLE_MASK = 2 := rfl
  have e2 : PARATICK_TIMER_MASK = 4 := rfl
  rw [e0, e1, e2] at hm
  have k00 : paratick_get_flag (paratick_set_flag f 1 v) 1 = v := by
    simpa using get_set_flag f 0 0 v (by decide)
  have k01 : paratick_get_flag (paratick_set_flag f 1 v) 2 = paratick_get_flag f 2 := by
    simpa using get_set_flag f 0 1 v (by decide)
  have k02 : paratick_get_flag (paratick_set_flag f 1 v) 4 = paratick_get_flag f 4 := by
    simpa using get_set_flag f 0 2 v (by decide)
  have k10 : paratick_get_flag (paratick_set_flag f 2 v) 1 = paratick_get_flag f 1 := by
    simpa using get_set_flag f 1 0 v (by decide)
  have k11 : paratick_get_flag (paratick_set_flag f 2 v) 2 = v := by
    simpa using get_set_flag f 1 1 v (by decide)
  have k12 : paratick_get_flag (paratick_set_flag f 2 v) 4 = paratick_get_flag f 4 := by
    simpa using get_set_flag f 1 2 v (by decide)
  have k20 : paratick_get_flag (paratick_set_flag f 4 v) 1 = paratick_get_flag f 1 := by
    simpa using get_set_flag f 2 0 v (by decide)
  have k21 : paratick_get_flag (paratick_set_flag f 4 v) 2 = paratick_get_flag f 2 := by
    simpa using get_set_flag f 2 1 v (by decide)
  have k22 : paratick_get_flag (paratick_set_flag f 4 v) 4 = v := by
    simpa using get_set_flag f 2 2 v (by decide)
  refine ⟨?_, ?_, set_flag_idem f m v, ?_⟩
  · rcases hm with h | h | h
    · rw [h]; exact k00
    · rw [h]; exact k11
    · rw [h]; exact k22
  · intro m2 hm2 hne
    rw [e0, e1, e2] at hm2
    rcases hm with h | h | h <;> rcases hm2 with h2 | h2 | h2
    all_goals first
      | exact absurd (h2.trans h.symm) hne
      | (rw [h, h2]; assumption)
  · unfold flag_record FlagRecord.set
    rw [e0, e1, e2]
    rcases hm with h | h | h
    · rw [h, k00, k01, k02]
      simp
    · rw [h, k10, k11, k12]
      simp
    · rw [h, k20, k21, k22]
      simp

/-- On the byte `0x5` (initialized, timer armed) setting the idle flag gives `0x7`:
idle reads true, the other two flags read as before. -/
theorem flags_are_a_record_witness :
    paratick_set_flag 5 PARATICK_IDLE_MASK true = 7
      ∧ paratick_get_flag (paratick_set_flag 5 PARATICK_IDLE_MASK true) PARATICK_IDLE_MASK = true
      ∧ flag_record (paratick_set_flag 5 PARATICK_IDLE_MASK true)
          = { initialized := true, in_idle := true, timer_armed := true } :=
  have h := flags_are_a_record 5 PARATICK_IDLE_MASK true (Or.inr (Or.inl rfl))
  ⟨by decide, h.1, by decide⟩

/-! ## The oracle: calls made and the specification's case analysis -/

theorem next_event_rest_log (e : Env) (now : Int) (k : Kernel) :
    (next_event_rest e now k).2.log = k.log ++ rest_calls e now := by
  unfold next_event_rest rest_calls
  split_ifs <;> simp

/-- The collaborator calls of `paratick_next_event`. -/
theorem next_event_log (e : Env) (now : Int) (k : Kernel) :
    (paratick_next_event e now k).2.log
      = k.log ++ oracle_calls e now k.paratick_do_timer_cpu := by
  unfold paratick_next_event oracle_calls
  simp only [calls_cpu, call_cpu]
  split_ifs <;> simp [next_event_rest_log]

/-- The value of the oracle does not depend on the log or on the per-CPU data. -/
theorem next_event_value_congr (e : Env) (now : Int) (k k2 : Kernel)
    (h : k2.paratick_do_timer_cpu = k.paratick_do_timer_cpu) :
    (paratick_next_event e now k2).1 = (paratick_next_event e now k).1 := by
  rw [next_event_value, next_event_value, h]

theorem veto_calls_count_clear (e : Env) :
    List.count Call.timer_clear_idle (veto_calls e) = 0 := by
  unfold veto_calls
  split_ifs <;> simp

/-- A wrapped value is a signed 64-bit value: never above `KTIME_MAX`. -/
theorem wrap64_le (x : Int) : wrap64 x ≤ 9223372036854775807 := by
  unfold wrap64
  have := Int.emod_lt_of_pos (x + 2 ^ 63) (show (0 : Int) < 2 ^ 64 by norm_num)
  norm_num at this ⊢
  omega

theorem next_event_le (e : Env) (now : Int) (k : Kernel) :
    (paratick_next_event e now k).1 ≤ KTIME_MAX := by
  have hK : KTIME_MAX = 9223372036854775807 := by norm_num [KTIME_MAX]
  have hT : TICK_PERIOD ≤ KTIME_MAX := by norm_num [TICK_PERIOD, KTIME_MAX]
  rw [next_event_value]
  split_ifs
  · exact hT
  · rw [hK]; exact wrap64_le _
  · exact hT
  · exact le_refl _
  · rw [hK]; exact wrap64_le _

/-- For ordinary monotonic times (`0 ≤ now ≤ KTIME_MAX`, the RCU deadline and the
maximal deferment at most `KTIME_MAX`) the `ktime_t` values of the oracle are
the plain integers: no conversion or subtraction wraps. -/
theorem oracle_values_in_range (e : Env) (now : Int)
    (hnow : 0 ≤ now) (hnow2 : now ≤ KTIME_MAX)
    (hrcu : (e.next_rcu : Int) ≤ KTIME_MAX) (hmax : (e.max_deferment : Int) ≤ KTIME_MAX) :
    max_deadline e = (e.max_deferment : Int)
      ∧ deadline e = ((min e.next_rcu e.next_tmr : Nat) : Int)
      ∧ delta e now = ((min e.next_rcu e.next_tmr : Nat) : Int) - now := by
  have hK : KTIME_MAX = 9223372036854775807 := by norm_num [KTIME_MAX]
  rw [hK] at hnow2 hrcu hmax
  clear hK
  have hmd : max_deadline e = (e.max_deferment : Int) := by
    unfold max_deadline
    apply wrap64_of_range
    · omega
    · omega
  have hmin : ((if e.next_rcu < e.next_tmr then e.next_rcu else e.next_tmr : Nat) : Int)
      = ((min e.next_rcu e.next_tmr : Nat) : Int) := by
    split_ifs with h
    · rw [Nat.min_eq_left (Nat.le_of_lt h)]
    · rw [Nat.min_eq_right (Nat.le_of_not_lt h)]
  have hmle : ((min e.next_rcu e.next_tmr : Nat) : Int) ≤ 9223372036854775807 := by
    have : min e.next_rcu e.next_tmr ≤ e.next_rcu := Nat.min_le_left _ _
    omega
  have hdl : deadline e = ((min e.next_rcu e.next_tmr : Nat) : Int) := by
    unfold deadline
    rw [hmin]
    apply wrap64_of_range
    · omega
    · omega
  refine ⟨hmd, hdl, ?_⟩
  unfold delta
  rw [hdl]
  apply wrap64_of_range
  · omega
  · omega

/-- C15. Without any veto, `paratick_next_event(now)` equals the specification's
case analysis applied in order to `deadline = min(next_rcu, next_tmr)` and
`delta = deadline - now`: the maximal deferment when the timekeeper is none
and it is below `delta`; else `TICK_PERIOD` when `delta < TICK_PERIOD`, and
`timer_clear_idle` is called, once, in this case only; else `KTIME_MAX`
("never") when `deadline` is `KTIME_MAX`; else `delta`. Here `deadline`,
`delta` and the maximal deferment are the `ktime_t` values the code computes;
for ordinary monotonic times they are the plain minimum and difference. -/
theorem next_event_refines_spec (e : Env) (now : Int) (k : Kernel) (hv : veto e = false) :
    (paratick_next_event e now k).1
        = (spec_next_event (decide (k.paratick_do_timer_cpu = TICK_DO_TIMER_NONE))
            (max_deadline e) (deadline e) (delta e now)).1
      ∧ List.count Call.timer_clear_idle (calls_since k (paratick_next_event e now k).2)
        = (if (spec_next_event (decide (k.paratick_do_timer_cpu = TICK_DO_TIMER_NONE))
                (max_deadline e) (deadline e) (delta e now)).2 = true then 1 else 0)
      ∧ (paratick_next_event e now k).2.data = k.data
      ∧ (paratick_next_event e now k).2.paratick_do_timer_cpu = k.paratick_do_timer_cpu
      ∧ (0 ≤ now → now ≤ KTIME_MAX → (e.next_rcu : Int) ≤ KTIME_MAX →
          (e.max_deferment : Int) ≤ KTIME_MAX →
          (paratick_next_event e now k).1
            = (spec_next_event (decide (k.paratick_do_timer_cpu = TICK_DO_TIMER_NONE))
                (e.max_deferment : Int) ((min e.next_rcu e.next_tmr : Nat) : Int)
                (((min e.next_rcu e.next_tmr : Nat) : Int) - now)).1) := by
  have hvn : ¬ veto e = true := by simp [hv]
  have hfirst : (paratick_next_event e now k).1
        = (spec_next_event (decide (k.paratick_do_timer_cpu = TICK_DO_TIMER_NONE))
            (max_deadline e) (deadline e) (delta e now)).1 := by
    rw [next_event_value, if_neg hvn]
    unfold spec_next_event
    simp only [decide_eq_true_eq]
    split_ifs <;> rfl
  refine ⟨hfirst, ?_, next_event_data e now k, next_event_cpu e now k, ?_⟩
  rotate_left
  · intro h1 h2 h3 h4
    obtain ⟨ha, hb, hc⟩ := oracle_values_in_range e now h1 h2 h3 h4
    rw [hfirst, ha, hb, hc]
  · rw [calls_since_of_log k _ _ (next_event_log e now k)]
    unfold oracle_calls spec_next_event rest_calls
    simp only [decide_eq_true_eq]
    rw [if_neg hvn, List.count_append, veto_calls_count_clear]
    by_cases h1 : k.paratick_do_timer_cpu = TICK_DO_TIMER_NONE
    · by_cases h2 : max_deadline e < delta e now
      · simp [h1, h2]
      · by_cases h3 : delta e now < TICK_PERIOD
        · simp [h1, h2, h3]
        · by_cases h4 : deadline e = KTIME_MAX
          · simp [h1, h2, h3, h4]
          · simp [h1, h2, h3, h4]
    · by_cases h3 : delta e now < TICK_PERIOD
      · simp [h1, h3]
      · by_cases h4 : deadline e = KTIME_MAX
        · simp [h1, h3, h4]
        · simp [h1, h3, h4]

/-- Scenario 2: `next_tmr = now + 1,500,000`, `next_rcu = now + 200,000,000`, no
timekeeper, `max_deferment = 60,000,000`: the oracle answers 4,000,000 and
calls `timer_clear_idle`. -/
theorem next_event_refines_spec_witness :
    veto env_near = false
      ∧ delta env_near 1000000000 = 1500000
      ∧ (paratick_next_event env_near 1000000000 boot).1 = 4000000
      ∧ List.count Call.timer_clear_idle
          (calls_since boot (paratick_next_event env_near 1000000000 boot).2) = 1 :=
  have h := next_event_refines_spec env_near 1000000000 boot (by decide)
  ⟨by decide, by decide, h.1, h.2.1⟩

/-! ## Arming the timer -/

theorem start_tick_log (cpu : Nat) (e : Env) (now d : Int) (k : Kernel) :
    (paratick_start_tick cpu e now d k).log
      = k.log ++ [Call.hrtimer_cancel cpu, Call.hrtimer_set_expires cpu (wrap64 (now - 1)),
          Call.hrtimer_forward cpu now d, Call.hrtimer_start_expires cpu] := by
  unfold paratick_start_tick
  simp

/-- The timer `paratick_start_tick` leaves: it depends on the old timer only
through its installed callback. -/
theorem start_tick_timer (cpu : Nat) (e : Env) (now d : Int) (k : Kernel) :
    ((paratick_start_tick cpu e now d k).data cpu).timer
      = hrtimer_start_expires
          (hrtimer_forward e.hrtimer_resolution
            { expires := wrap64 (now - 1), enqueued := false,
              function_set := (k.data cpu).timer.function_set } now d) := by
  rw [start_tick_data, if_pos rfl]
  rfl

/-- Forwarding a cancelled timer whose expiry is `now - 1` by `d > 0`: with
`I = max(d, hrtimer_resolution)` the new expiry is `now - 1 + I`, except that it
is `now + 1` when `I = 1`. -/
theorem forward_from_now_pred (res now d : Int) (f : Bool)
    (hnow : 1 ≤ now) (hd : 0 < d) (hfit : now + max d res ≤ 9223372036854775807) :
    hrtimer_forward res { expires := now - 1, enqueued := false, function_set := f } now d
      = { expires := if max d res = 1 then now + 1 else now - 1 + max d res,
          enqueued := false, function_set := f } := by
  have hI : (if d < res then res else d) = max d res := by
    split_ifs with h
    · rw [max_eq_right (le_of_lt h)]
    · rw [max_eq_left (le_of_not_lt h)]
  have hIpos : 0 < max d res := lt_of_lt_of_le hd (le_max_left _ _)
  have h1 : wrap64 (now - (now - 1)) = 1 := by
    rw [show now - (now - 1) = 1 by ring]
    apply wrap64_of_range
    · omega
    · omega
  unfold hrtimer_forward
  simp only [h1, hI]
  rw [if_neg (by omega)]
  simp only [Bool.false_eq_true, if_false]
  generalize max d res = I at *
  by_cases hone : I = 1
  · subst hone
    rw [if_pos (le_refl _), if_pos rfl]
    have h2 : wrap64 ((1 : Int) * Int.tdiv 1 1) = 1 := by
      rw [show (1 : Int) * Int.tdiv 1 1 = 1 by decide]
      apply wrap64_of_range
      · omega
      · omega
    have h3 : wrap64 (now - 1 + 1) = now := by
      rw [show now - 1 + 1 = now by ring]
      apply wrap64_of_range
      · omega
      · omega
    have h4 : wrap64 (now + 1) = now + 1 := by
      apply wrap64_of_range
      · omega
      · omega
    simp only [h2, h3]
    rw [if_neg (lt_irrefl now)]
    unfold ktime_add_safe
    simp only [h4]
    rw [if_neg (by omega)]
  · have hge : ¬ (1 : Int) ≥ I := by omega
    rw [if_neg hge, if_neg hone]
    have h4 : wrap64 (now - 1 + I) = now - 1 + I := by
      apply wrap64_of_range
      · omega
      · omega
    unfold ktime_add_safe
    simp only [h4]
    rw [if_neg (by omega)]

/-- C16, as stated, fails: arming CPU 0 at `now = 1,000,000,000` with
`delta = 60,000,000` (high-resolution timers, `hrtimer_resolution = 1`) leaves
the timer registered with expiry 1,059,999,999, not `now + delta`. -/
theorem arm_expiry_fails :
    ((paratick_start_tick 0 env_distant 1000000000 60000000
        (setup_paratick_timer 0 kernel_loaded)).data 0).timer
        = { expires := 1059999999, enqueued := true, function_set := true }
      ∧ (1059999999 : Int) ≠ 1000000000 + 60000000 := by
  decide

/-- C16, amended. For every `now ≥ 1` and every positive `delta` such that
`now + I` fits a `ktime_t`, where `I = max(delta, hrtimer_resolution)`,
`paratick_start_tick` sets `timer_armed`, cancels any prior expiry
(`hrtimer_cancel` is its first call), and leaves the timer registered with the
absolute expiry `now - 1 + I` (and `now + 1` when `I = 1`); the `initialized`
and `in_idle` flags, `last_tick` and the timekeeper id are unchanged. -/
theorem arm_expiry_amended (cpu : Nat) (e : Env) (now d : Int) (k : Kernel)
    (hnow : 1 ≤ now) (hd : 0 < d) (hfit : now + max d e.hrtimer_resolution ≤ KTIME_MAX) :
    paratick_get_timer ((paratick_start_tick cpu e now d k).data cpu) = true
      ∧ calls_since k (paratick_start_tick cpu e now d k)
        = [Call.hrtimer_cancel cpu, Call.hrtimer_set_expires cpu (now - 1),
            Call.hrtimer_forward cpu now d, Call.hrtimer_start_expires cpu]
      ∧ ((paratick_start_tick cpu e now d k).data cpu).timer
        = { expires := if max d e.hrtimer_resolution = 1 then now + 1
                       else now - 1 + max d e.hrtimer_resolution,
            enqueued := true, function_set := (k.data cpu).timer.function_set }
      ∧ paratick_get_init ((paratick_start_tick cpu e now d k).data cpu)
        = paratick_get_init (k.data cpu)
      ∧ paratick_get_idle ((paratick_start_tick cpu e now d k).data cpu)
        = paratick_get_idle (k.data cpu)
      ∧ ((paratick_start_tick cpu e now d k).data cpu).last_tick = (k.data cpu).last_tick
      ∧ (paratick_start_tick cpu e now d k).paratick_do_timer_cpu = k.paratick_do_timer_cpu := by
  have hK : KTIME_MAX = 9223372036854775807 := by norm_num [KTIME_MAX]
  rw [hK] at hfit
  clear hK
  have hpos : 0 < max d e.hrtimer_resolution := lt_of_lt_of_le hd (le_max_left _ _)
  have hw : wrap64 (now - 1) = now - 1 := by
    apply wrap64_of_range
    · omega
    · omega
  have hflags : (paratick_start_tick cpu e now d k).data cpu
      = { paratick_set_timer (k.data cpu) true with
          timer := ((paratick_start_tick cpu e now d k).data cpu).timer } := by
    rw [start_tick_data, if_pos rfl]
  refine ⟨?_, ?_, ?_, ?_, ?_, ?_, start_tick_cpu cpu e now d k⟩
  · rw [hflags]
    exact get_timer_set_timer (k.data cpu) true
  · rw [calls_since_of_log k _ _ (start_tick_log cpu e now d k), hw]
  · rw [start_tick_timer, hw, forward_from_now_pred e.hrtimer_resolution now d _ hnow hd hfit]
    rfl
  · rw [hflags]
    exact get_init_set_timer (k.data cpu) true
  · rw [hflags]
    exact get_idle_set_timer (k.data cpu) true
  · rw [hflags]
    rfl

/-- Scenario 1: arming CPU 0 at `now = 1,000,000,000` with `delta = 60,000,000`
sets `timer_armed` and registers the expiry 1,059,999,999. -/
theorem arm_expiry_amended_witness :
    paratick_get_timer
        ((paratick_start_tick 0 env_distant 1000000000 60000000
          (setup_paratick_timer 0 kernel_loaded)).data 0) = true
      ∧ ((paratick_start_tick 0 env_distant 1000000000 60000000
          (setup_paratick_timer 0 kernel_loaded)).data 0).timer.expires = 1059999999 :=
  have h := arm_expiry_amended 0 env_distant 1000000000 60000000
    (setup_paratick_timer 0 kernel_loaded) (by decide) (by decide) (by decide)
  ⟨h.1, by rw [h.2.2.1]; decide⟩

/-! ## Starting idle -/

/-- The per-CPU data after `paratick_start_idle`, with `next` the oracle's answer. -/
theorem start_idle_data (cpu c : Nat) (e : Env) (k : Kernel) :
    (paratick_start_idle cpu e k).data c
      = if paratick_get_init (k.data cpu) = true then
          (if (paratick_next_event e e.ktime k).1 < KTIME_MAX then
            (paratick_start_tick cpu e e.ktime (paratick_next_event e e.ktime k).1 k).data c
           else if paratick_get_timer (k.data cpu) = true then (paratick_stop_tick cpu k).data c
           else k.data c)
        else k.data c := by
  unfold paratick_start_idle
  have hd := next_event_data e e.ktime (call Call.ktime_get (call Call.local_irq_disable k))
  simp only [call_data] at hd
  have hv := next_event_value_congr e e.ktime k
    (call Call.ktime_get (call Call.local_irq_disable k)) rfl
  by_cases hi : paratick_get_init (k.data cpu) = true
  · rw [if_pos hi, if_pos hi]
    simp only [call_data, ite_call_data, hv, hd]
    by_cases h1 : (paratick_next_event e e.ktime k).1 < KTIME_MAX
    · rw [if_pos h1, if_pos h1, start_tick_data, start_tick_data, hd]
    · rw [if_neg h1, if_neg h1]
      by_cases h2 : paratick_get_timer (k.data cpu) = true
      · rw [if_pos h2, if_pos h2, stop_tick_data, stop_tick_data, hd]
      · rw [if_neg h2, if_neg h2, hd]
  · rw [if_neg hi, if_neg hi]

/-- The collaborator calls of `paratick_start_idle`. -/
theorem start_idle_log (cpu : Nat) (e : Env) (k : Kernel) :
    (paratick_start_idle cpu e k).log
      = if paratick_get_init (k.data cpu) = true then
          k.log ++ ([Call.local_irq_disable, Call.ktime_get]
            ++ oracle_calls e e.ktime k.paratick_do_timer_cpu
            ++ start_idle_timer_calls cpu e.ktime (paratick_next_event e e.ktime k).1
                (paratick_get_timer (k.data cpu))
            ++ (if (paratick_next_event e e.ktime k).1 > TICK_PERIOD
                then [Call.nohz_balance_enter_idle cpu] else [])
            ++ [Call.local_irq_enable])
        else k.log := by
  unfold paratick_start_idle start_idle_timer_calls
  have hd := next_event_data e e.ktime (call Call.ktime_get (call Call.local_irq_disable k))
  simp only [call_data] at hd
  have hl := next_event_log e e.ktime (call Call.ktime_get (call Call.local_irq_disable k))
  simp only [call_log, call_cpu] at hl
  have hv := next_event_value_congr e e.ktime k
    (call Call.ktime_get (call Call.local_irq_disable k)) rfl
  by_cases hi : paratick_get_init (k.data cpu) = true
  · rw [if_pos hi, if_pos hi]
    simp only [hv, hd]
    by_cases h1 : (paratick_next_event e e.ktime k).1 < KTIME_MAX
    · by_cases h3 : (paratick_next_event e e.ktime k).1 > TICK_PERIOD
      · simp [h1, h3, start_tick_log, hl]
      · simp [h1, h3, start_tick_log, hl]
    · by_cases h2 : paratick_get_timer (k.data cpu) = true
      · by_cases h3 : (paratick_next_event e e.ktime k).1 > TICK_PERIOD
        · simp [h1, h2, h3, stop_tick_log, hl]
        · simp [h1, h2, h3, stop_tick_log, hl]
      · by_cases h3 : (paratick_next_event e e.ktime k).1 > TICK_PERIOD
        · simp [h1, h2, h3, hl]
        · simp [h1, h2, h3, hl]
  · rw [if_neg hi, if_neg hi]
theorem oracle_calls_count_nohz (cpu : Nat) (e : Env) (now cpu_id : Int) :
    List.count (Call.nohz_balance_enter_idle cpu) (oracle_calls e now cpu_id) = 0 := by
  unfold oracle_calls veto_calls rest_calls
  split_ifs <;> simp

theorem timer_calls_count_nohz (cpu : Nat) (now next : Int) (armed : Bool) :
    List.count (Call.nohz_balance_enter_idle cpu) (start_idle_timer_calls cpu now next armed)
      = 0 := by
  unfold start_idle_timer_calls
  split_ifs <;> simp

/-- The number of `nohz_balance_enter_idle(cpu)` calls of `paratick_start_idle` on an
initialized CPU. -/
theorem start_idle_count_nohz (cpu : Nat) (e : Env) (k : Kernel)
    (hinit : paratick_get_init (k.data cpu) = true) :
    List.count (Call.nohz_balance_enter_idle cpu) (calls_since k (paratick_start_idle cpu e k))
      = if TICK_PERIOD < (paratick_next_event e e.ktime k).1 then 1 else 0 := by
  have hlog := start_idle_log cpu e k
  rw [if_pos hinit] at hlog
  rw [calls_since_of_log k _ _ hlog]
  simp only [List.count_append, oracle_calls_count_nohz, timer_calls_count_nohz]
  split_ifs with h1
  · simp
  · simp

/-- C12. The function `paratick_start_idle` on an initialized CPU, with
`now = ktime_get()` and `next = paratick_next_event(now)`: when `next` is
finite (not `KTIME_MAX`) it arms the tick with `(now, next)` and `timer_armed`
becomes true; when `next` is never and `timer_armed` was set it disarms and
`timer_armed` becomes false; when `next` is never and the timer was not armed
no per-CPU data changes; `nohz_balance_enter_idle(cpu)` is called, once,
exactly when `next` exceeds `TICK_PERIOD`; the timekeeper id never changes. -/
theorem start_idle_arms (cpu : Nat) (e : Env) (k : Kernel)
    (hinit : paratick_get_init (k.data cpu) = true) :
    ((paratick_next_event e e.ktime k).1 ≠ KTIME_MAX →
        (paratick_start_idle cpu e k).data
          = (paratick_start_tick cpu e e.ktime (paratick_next_event e e.ktime k).1 k).data
        ∧ paratick_get_timer ((paratick_start_idle cpu e k).data cpu) = true
        ∧ Call.hrtimer_forward cpu e.ktime (paratick_next_event e e.ktime k).1
            ∈ calls_since k (paratick_start_idle cpu e k)
        ∧ Call.hrtimer_start_expires cpu ∈ calls_since k (paratick_start_idle cpu e k))
      ∧ ((paratick_next_event e e.ktime k).1 = KTIME_MAX →
          paratick_get_timer (k.data cpu) = true →
          (paratick_start_idle cpu e k).data = (paratick_stop_tick cpu k).data
          ∧ paratick_get_timer ((paratick_start_idle cpu e k).data cpu) = false
          ∧ Call.hrtimer_cancel cpu ∈ calls_since k (paratick_start_idle cpu e k))
      ∧ ((paratick_next_event e e.ktime k).1 = KTIME_MAX →
          paratick_get_timer (k.data cpu) = false →
          (paratick_start_idle cpu e k).data = k.data
          ∧ start_idle_timer_calls cpu e.ktime (paratick_next_event e e.ktime k).1
              (paratick_get_timer (k.data cpu)) = [])
      ∧ (Call.nohz_balance_enter_idle cpu ∈ calls_since k (paratick_start_idle cpu e k)
          ↔ TICK_PERIOD < (paratick_next_event e e.ktime k).1)
      ∧ List.count (Call.nohz_balance_enter_idle cpu)
          (calls_since k (paratick_start_idle cpu e k))
        = (if TICK_PERIOD < (paratick_next_event e e.ktime k).1 then 1 else 0)
      ∧ (paratick_start_idle cpu e k).paratick_do_timer_cpu = k.paratick_do_timer_cpu := by
  have hle := next_event_le e e.ktime k
  have hlog := start_idle_log cpu e k
  rw [if_pos hinit] at hlog
  have hcalls := calls_since_of_log k _ _ hlog
  have hdata : ∀ c, (paratick_start_idle cpu e k).data c
      = (if (paratick_next_event e e.ktime k).1 < KTIME_MAX then
            (paratick_start_tick cpu e e.ktime (paratick_next_event e e.ktime k).1 k).data c
           else if paratick_get_timer (k.data cpu) = true then (paratick_stop_tick cpu k).data c
           else k.data c) := by
    intro c
    rw [start_idle_data, if_pos hinit]
  have hcount := start_idle_count_nohz cpu e k hinit
  refine ⟨?_, ?_, ?_, ?_, hcount, start_idle_cpu cpu e k⟩
  · intro hne
    have hlt : (paratick_next_event e e.ktime k).1 < KTIME_MAX := lt_of_le_of_ne hle hne
    have hd : (paratick_start_idle cpu e k).data
        = (paratick_start_tick cpu e e.ktime (paratick_next_event e e.ktime k).1 k).data := by
      funext c
      rw [hdata, if_pos hlt]
    refine ⟨hd, ?_, ?_, ?_⟩
    · rw [hd, start_tick_data, if_pos rfl]
      exact get_timer_set_timer (k.data cpu) true
    · rw [hcalls]
      unfold start_idle_timer_calls
      rw [if_pos hlt]
      simp
    · rw [hcalls]
      unfold start_idle_timer_calls
      rw [if_pos hlt]
      simp
  · intro heq harmed
    have hnlt : ¬ (paratick_next_event e e.ktime k).1 < KTIME_MAX := by
      rw [heq]
      exact lt_irrefl _
    have hd : (paratick_start_idle cpu e k).data = (paratick_stop_tick cpu k).data := by
      funext c
      rw [hdata, if_neg hnlt, if_pos harmed]
    refine ⟨hd, ?_, ?_⟩
    · rw [hd, stop_tick_data, if_pos rfl]
      exact get_timer_set_timer _ false
    · rw [hcalls]
      unfold start_idle_timer_calls
      rw [if_neg hnlt, harmed]
      simp
  · intro heq harmed
    have hnlt : ¬ (paratick_next_event e e.ktime k).1 < KTIME_MAX := by
      rw [heq]
      exact lt_irrefl _
    have hna : ¬ paratick_get_timer (k.data cpu) = true := by simp [harmed]
    refine ⟨?_, ?_⟩
    · funext c
      rw [hdata, if_neg hnlt, if_neg hna]
    · unfold start_idle_timer_calls
      rw [if_neg hnlt, harmed]
      rfl
  · rw [← List.count_pos_iff, hcount]
    split_ifs with h
    · simp [h]
    · simp [h]

/-- Scenario 1 on CPU 0: `next = 60,000,000`; the timer is armed and
`nohz_balance_enter_idle(0)` is called. -/
theorem start_idle_arms_witness :
    paratick_get_init ((setup_paratick_timer 0 kernel_loaded).data 0) = true
      ∧ (paratick_next_event env_distant env_distant.ktime
          (setup_paratick_timer 0 kernel_loaded)).1 = 60000000
      ∧ paratick_get_timer
          ((paratick_start_idle 0 env_distant (setup_paratick_timer 0 kernel_loaded)).data 0)
          = true
      ∧ Call.nohz_balance_enter_idle 0
          ∈ calls_since (setup_paratick_timer 0 kernel_loaded)
              (paratick_start_idle 0 env_distant (setup_paratick_timer 0 kernel_loaded)) :=
  have h := start_idle_arms 0 env_distant (setup_paratick_timer 0 kernel_loaded) (by decide)
  ⟨by decide, by decide, (h.1 (by decide)).2.1, h.2.2.2.1.mpr (by decide)⟩

/-! ## The initialized flag -/

theorem start_idle_init (cpu c : Nat) (e : Env) (k : Kernel) :
    paratick_get_init ((paratick_start_idle cpu e k).data c) = paratick_get_init (k.data c) := by
  rw [start_idle_data]
  split_ifs with h0 h1 h2
  · rw [start_tick_data]
    split_ifs with hc
    · subst hc
      exact get_init_set_timer (k.data c) true
    · rfl
  · rw [stop_tick_data]
    split_ifs with hc
    · subst hc
      exact get_init_set_timer _ false
    · rfl
  · rfl
  · rfl

theorem sched_timer_init (cpu c : Nat) (e : Env) (k : Kernel) :
    paratick_get_init ((paratick_sched_timer cpu e k).2.data c) = paratick_get_init (k.data c) := by
  unfold paratick_sched_timer
  have hd := next_event_data e e.ktime (call Call.ktime_get k)
  simp only [call_data] at hd
  simp only []
  split_ifs with h1
  · simp only [call_data, set_pd_data, hd]
    split_ifs with h
    · subst h; rfl
    · rfl
  · simp only [call_data, set_pd_data, hd]
    split_ifs with h
    · subst h
      exact get_init_set_timer _ false
    · rfl

theorem timer_fires_init (cpu c : Nat) (e : Env) (k : Kernel) :
    paratick_get_init ((timer_fires cpu e k).data c) = paratick_get_init (k.data c) := by
  unfold timer_fires
  simp only []
  have h0 : paratick_get_init
      ((set_pd cpu { k.data cpu with timer := { (k.data cpu).timer with enqueued := false } }
          k).data c) = paratick_get_init (k.data c) := by
    rw [set_pd_data]
    split_ifs with h
    · subst h; rfl
    · rfl
  split_ifs with h1 h2
  · rw [set_pd_data]
    split_ifs with h
    · subst h
      exact (sched_timer_init c c e _).trans h0
    · exact (sched_timer_init cpu c e _).trans h0
  · exact (sched_timer_init cpu c e _).trans h0
  · rfl

/-- No operation other than `setup_paratick_timer` changes an `initialized` flag,
and `setup_paratick_timer` changes only the flag of its own CPU. -/
theorem step_init (k : Kernel) (ev : Event) (c : Nat)
    (h : ev.op ≠ Op.setup_paratick_timer ∨ c ≠ ev.cpu) :
    paratick_get_init ((step k ev).data c) = paratick_get_init (k.data c) := by
  obtain ⟨op, cpu, e⟩ := ev
  cases op <;> simp only [step]
  · rw [init_data]
    split_ifs <;> rfl
  · rcases h with h | h
    · exact absurd rfl h
    · have hc : ¬ c = cpu := h
      unfold setup_paratick_timer
      simp only [set_pd_data, call_data]
      rw [if_neg hc, if_neg hc]
  · rw [enter_idle_data]
    split_ifs with hc
    · subst hc
      exact get_init_set_idle (k.data c) true
    · rfl
  · exact start_idle_init cpu c e k
  · rw [exit_idle_data]
    split_ifs with hc ht
    · subst hc
      rw [get_init_set_timer]
      exact get_init_set_idle (k.data c) false
    · subst hc
      exact get_init_set_idle (k.data c) false
    · rfl
  · rw [irq_enter_data]
  · rfl
  · rw [tick_body_data]
    split_ifs with hc
    · subst hc; rfl
    · rfl
  · simp only [handle_paratick_irq, call_data]
    rw [tick_body_data]
    split_ifs with hc
    · subst hc; rfl
    · rfl
  · exact timer_fires_init cpu c e k

/-- C18. Initialized guard: when the `initialized` flag of the CPU is false,
`paratick_start_idle` does nothing: the whole state is unchanged, and it makes
no collaborator call at all (it does not read the clock or query the oracle,
does not arm or cancel the timer, does not call `nohz_balance_enter_idle`).
And no operation other than `setup_paratick_timer` ever changes an
`initialized` flag. -/
theorem initialized_guard (cpu : Nat) (e : Env) (k : Kernel)
    (hinit : paratick_get_init (k.data cpu) = false) :
    paratick_start_idle cpu e k = k
      ∧ calls_since k (paratick_start_idle cpu e k) = []
      ∧ (∀ (k2 : Kernel) (ev : Event) (c : Nat), ev.op ≠ Op.setup_paratick_timer →
          paratick_get_init ((step k2 ev).data c) = paratick_get_init (k2.data c)) := by
  have hk : paratick_start_idle cpu e k = k := by
    unfold paratick_start_idle
    rw [if_neg (by simp [hinit])]
  refine ⟨hk, ?_, fun k2 ev c h => step_init k2 ev c (Or.inl h)⟩
  rw [hk]
  unfold calls_since
  simp

/-- CPU 1 was never set up: `paratick_start_idle` makes no call and arms nothing. -/
theorem initialized_guard_witness :
    paratick_get_init (kernel_loaded.data 1) = false
      ∧ calls_since kernel_loaded (paratick_start_idle 1 env_distant kernel_loaded) = []
      ∧ (paratick_start_idle 1 env_distant kernel_loaded).data 1 = kernel_loaded.data 1 :=
  have h := initialized_guard 1 env_distant kernel_loaded (by decide)
  ⟨by decide, h.2.1, by rw [h.1]⟩

/-! ## `paratick_start_idle` on an active CPU -/

/-- Setting a flag that is already set changes nothing. -/
theorem set_flag_true_of_get (f i : Nat) (h : paratick_get_flag f (2 ^ i) = true) :
    paratick_set_flag f (2 ^ i) true = f := by
  rw [get_flag_testBit] at h
  unfold paratick_set_flag
  simp only [if_true]
  apply Nat.eq_of_testBit_eq
  intro j
  rw [Nat.testBit_or, Nat.testBit_two_pow]
  by_cases hij : i = j
  · subst hij
    simp [h]
  · simp [hij]

theorem set_idle_of_idle (pd : paratick_data) (h : paratick_get_idle pd = true) :
    paratick_set_idle pd true = pd := by
  have := set_flag_true_of_get pd.flags 1 h
  unfold paratick_set_idle
  rw [show PARATICK_IDLE_MASK = 2 ^ 1 from rfl, this]

/-- Entering idle on a CPU that is idle and not the timekeeper changes only the log. -/
theorem enter_idle_again (cpu : Nat) (k : Kernel)
    (hidle : paratick_get_idle (k.data cpu) = true)
    (hcpu : k.paratick_do_timer_cpu ≠ (cpu : Int)) :
    (paratick_enter_idle cpu k).data = k.data
      ∧ (paratick_enter_idle cpu k).paratick_do_timer_cpu = k.paratick_do_timer_cpu := by
  refine ⟨?_, ?_⟩
  · funext c
    rw [enter_idle_data]
    split_ifs with hc
    · subst hc
      exact set_idle_of_idle _ hidle
    · rfl
  · rw [enter_idle_cpu, if_neg hcpu]

theorem forward_function_set (res : Int) (t : hrtimer) (now d : Int) :
    (hrtimer_forward res t now d).function_set = t.function_set := by
  unfold hrtimer_forward
  simp only []
  split_ifs <;> rfl

/-- After `paratick_start_idle`, a second `paratick_start_idle` on the same CPU
with the same clock reading and the same collaborator answers leaves all
per-CPU data as they are. -/
theorem start_idle_again (cpu : Nat) (e : Env) (k : Kernel) :
    (paratick_start_idle cpu e (paratick_start_idle cpu e k)).data
      = (paratick_start_idle cpu e k).data := by
  have hv : (paratick_next_event e e.ktime (paratick_start_idle cpu e k)).1
      = (paratick_next_event e e.ktime k).1 :=
    next_event_value_congr e e.ktime k _ (start_idle_cpu cpu e k)
  have hi : paratick_get_init ((paratick_start_idle cpu e k).data cpu)
      = paratick_get_init (k.data cpu) := start_idle_init cpu cpu e k
  funext c
  rw [start_idle_data cpu c e (paratick_start_idle cpu e k), hv, hi]
  by_cases hinit : paratick_get_init (k.data cpu) = true
  · rw [if_pos hinit]
    by_cases h1 : (paratick_next_event e e.ktime k).1 < KTIME_MAX
    · rw [if_pos h1]
      have hd : ∀ c2, (paratick_start_idle cpu e k).data c2
          = (paratick_start_tick cpu e e.ktime (paratick_next_event e e.ktime k).1 k).data c2 := by
        intro c2
        rw [start_idle_data, if_pos hinit, if_pos h1]
      rw [start_tick_data, hd c, hd cpu]
      by_cases hc : c = cpu
      · subst hc
        rw [if_pos rfl]
        rw [start_tick_data, if_pos rfl]
        simp only [hrtimer_cancel, hrtimer_set_expires, hrtimer_start_expires,
          forward_function_set, paratick_set_timer, set_flag_idem]
      · rw [if_neg hc]
    · rw [if_neg h1]
      by_cases h2 : paratick_get_timer (k.data cpu) = true
      · have hd : ∀ c2, (paratick_start_idle cpu e k).data c2
            = (paratick_stop_tick cpu k).data c2 := by
          intro c2
          rw [start_idle_data, if_pos hinit, if_neg h1, if_pos h2]
        have hoff : ¬ paratick_get_timer ((paratick_start_idle cpu e k).data cpu) = true := by
          rw [hd cpu, stop_tick_data, if_pos rfl, get_timer_set_timer]
          simp
        rw [if_neg hoff]
      · have hd : ∀ c2, (paratick_start_idle cpu e k).data c2 = k.data c2 := by
          intro c2
          rw [start_idle_data, if_pos hinit, if_neg h1, if_neg h2]
        have hoff : ¬ paratick_get_timer ((paratick_start_idle cpu e k).data cpu) = true := by
          rw [hd cpu]
          exact h2
        rw [if_neg hoff]
  · rw [if_neg hinit]

/-- C11. Idempotent idle entry: with the clock reading and all collaborator
answers held fixed, running `enter_idle(); start_idle()` a second time after a
first `enter_idle(); start_idle()` leaves exactly the same state: the same
per-CPU data on every CPU (flag byte, `last_tick`, and the timer: registered
or not, and its expiry) and the same timekeeper id. -/
theorem idle_entry_idempotent (cpu : Nat) (e : Env) (k : Kernel)
    (hinit : paratick_get_init (k.data cpu) = true) :
    (paratick_start_idle cpu e
        (paratick_enter_idle cpu (paratick_start_idle cpu e (paratick_enter_idle cpu k)))).data
        = (paratick_start_idle cpu e (paratick_enter_idle cpu k)).data
      ∧ (paratick_start_idle cpu e
          (paratick_enter_idle cpu
            (paratick_start_idle cpu e (paratick_enter_idle cpu k)))).paratick_do_timer_cpu
        = (paratick_start_idle cpu e (paratick_enter_idle cpu k)).paratick_do_timer_cpu
      ∧ paratick_get_init ((paratick_start_idle cpu e (paratick_enter_idle cpu k)).data cpu)
        = true := by
  have hnone : TICK_DO_TIMER_NONE ≠ (cpu : Int) := by
    unfold TICK_DO_TIMER_NONE
    omega
  have hcpu1 : (paratick_enter_idle cpu k).paratick_do_timer_cpu ≠ (cpu : Int) := by
    rw [enter_idle_cpu]
    split_ifs with h
    · exact hnone
    · exact h
  have hidle1 : paratick_get_idle ((paratick_enter_idle cpu k).data cpu) = true := by
    rw [enter_idle_data, if_pos rfl, get_idle_set_idle]
  have hidle2 : paratick_get_idle
      ((paratick_start_idle cpu e (paratick_enter_idle cpu k)).data cpu) = true := by
    rw [(start_idle_keeps cpu cpu e _).idle, hidle1]
  have hcpu2 : (paratick_start_idle cpu e (paratick_enter_idle cpu k)).paratick_do_timer_cpu
      ≠ (cpu : Int) := by
    rw [start_idle_cpu]
    exact hcpu1
  obtain ⟨hd, hc⟩ := enter_idle_again cpu _ hidle2 hcpu2
  have hsame : ∀ k2 k3 : Kernel, k2.data = k3.data →
      k2.paratick_do_timer_cpu = k3.paratick_do_timer_cpu →
      (paratick_start_idle cpu e k2).data = (paratick_start_idle cpu e k3).data := by
    intro k2 k3 h1 h2
    funext c
    rw [start_idle_data, start_idle_data, next_event_value_congr e e.ktime k3 k2 h2, h1]
    split_ifs
    · rw [start_tick_data, start_tick_data, h1]
    · rw [stop_tick_data, stop_tick_data, h1]
    · rfl
    · rfl
  refine ⟨?_, ?_, ?_⟩
  · rw [hsame _ _ hd hc]
    exact start_idle_again cpu e _
  · rw [start_idle_cpu, hc]
  · rw [start_idle_init, enter_idle_data, if_pos rfl, get_init_set_idle, hinit]

set_option maxRecDepth 100000 in
/-- Scenario 1 on CPU 0, run twice: both times the timer is left registered with
the expiry 1,059,999,999 and the flag byte is `0x7`. -/
theorem idle_entry_idempotent_witness :
    (paratick_start_idle 0 env_distant
        (paratick_enter_idle 0 (setup_paratick_timer 0 kernel_loaded))).data 0
        = { timer := { expires := 1059999999, enqueued := true, function_set := true },
            flags := 7, last_tick := 1000000000 }
      ∧ (paratick_start_idle 0 env_distant
          (paratick_enter_idle 0
            (paratick_start_idle 0 env_distant
              (paratick_enter_idle 0 (setup_paratick_timer 0 kernel_loaded))))).data
        = (paratick_start_idle 0 env_distant
            (paratick_enter_idle 0 (setup_paratick_timer 0 kernel_loaded))).data :=
  ⟨by decide,
   (idle_entry_idempotent 0 env_distant (setup_paratick_timer 0 kernel_loaded) (by decide)).1⟩

/-! ## The deferral without a timekeeper -/

/-- C20. Implicit bound on the deferral without a timekeeper: when the timekeeper
is none, `0 ≤ now` and `max_deferment < KTIME_MAX - now`, the oracle never
answers never (`KTIME_MAX`) and its answer is at most
`max(TICK_PERIOD, max_deferment)`; hence `paratick_start_idle` on an
initialized CPU, reading `now`, always arms the timer: afterwards
`timer_armed` is set and an expiry is registered. -/
theorem no_timekeeper_bound (e : Env) (now : Int) (k : Kernel)
    (hcpu : k.paratick_do_timer_cpu = TICK_DO_TIMER_NONE)
    (hnow : 0 ≤ now)
    (hmax : (e.max_deferment : Int) < KTIME_MAX - now) :
    (paratick_next_event e now k).1 ≠ KTIME_MAX
      ∧ (paratick_next_event e now k).1 ≤ max TICK_PERIOD (e.max_deferment : Int)
      ∧ (∀ cpu : Nat, e.ktime = now → paratick_get_init (k.data cpu) = true →
          paratick_get_timer ((paratick_start_idle cpu e k).data cpu) = true
          ∧ ((paratick_start_idle cpu e k).data cpu).timer.enqueued = true) := by
  have hK : KTIME_MAX = 9223372036854775807 := by norm_num [KTIME_MAX]
  have hT : TICK_PERIOD = 4000000 := rfl
  have hmd : max_deadline e = (e.max_deferment : Int) := by
    unfold max_deadline
    apply wrap64_of_range
    · omega
    · omega
  have hval : (paratick_next_event e now k).1 < KTIME_MAX
      ∧ (paratick_next_event e now k).1 ≤ max TICK_PERIOD (e.max_deferment : Int) := by
    rw [next_event_value, hmd]
    by_cases hv : veto e = true
    · rw [if_pos hv]
      exact ⟨by rw [hK, hT]; norm_num, le_max_left _ _⟩
    · rw [if_neg hv]
      by_cases hc : k.paratick_do_timer_cpu = TICK_DO_TIMER_NONE
            ∧ (e.max_deferment : Int) < delta e now
      · rw [if_pos hc]
        exact ⟨by omega, le_max_right _ _⟩
      · rw [if_neg hc]
        have hle : delta e now ≤ (e.max_deferment : Int) := by
          by_contra hlt
          exact hc ⟨hcpu, lt_of_not_le hlt⟩
        by_cases h3 : delta e now < TICK_PERIOD
        · rw [if_pos h3]
          exact ⟨by rw [hK, hT]; norm_num, le_max_left _ _⟩
        · rw [if_neg h3]
          by_cases h4 : deadline e = KTIME_MAX
          · exfalso
            have hde : delta e now = 9223372036854775807 - now := by
              unfold delta
              rw [h4, hK]
              apply wrap64_of_range
              · omega
              · omega
            omega
          · rw [if_neg h4]
            exact ⟨by omega, le_trans hle (le_max_right _ _)⟩
  refine ⟨ne_of_lt hval.1, hval.2, ?_⟩
  intro cpu hk hinit
  have hlt : (paratick_next_event e e.ktime k).1 < KTIME_MAX := by
    rw [hk]
    exact hval.1
  have hd : (paratick_start_idle cpu e k).data cpu
      = (paratick_start_tick cpu e e.ktime (paratick_next_event e e.ktime k).1 k).data cpu := by
    rw [start_idle_data, if_pos hinit, if_pos hlt]
  rw [hd, start_tick_data, if_pos rfl]
  exact ⟨get_timer_set_timer (k.data cpu) true, rfl⟩

/-- Scenario 1 on CPU 0 with no timekeeper: the oracle answers 60,000,000, not
never, and `paratick_start_idle` arms the timer. -/
theorem no_timekeeper_bound_witness :
    (paratick_next_event env_distant 1000000000 (setup_paratick_timer 0 kernel_loaded)).1
        ≠ KTIME_MAX
      ∧ (paratick_next_event env_distant 1000000000 (setup_paratick_timer 0 kernel_loaded)).1
        ≤ max TICK_PERIOD 60000000
      ∧ paratick_get_timer
          ((paratick_start_idle 0 env_distant (setup_paratick_timer 0 kernel_loaded)).data 0)
          = true :=
  have h := no_timekeeper_bound env_distant 1000000000 (setup_paratick_timer 0 kernel_loaded)
    (by decide) (by decide) (by decide)
  ⟨h.1, h.2.1, (h.2.2 0 (by decide) (by decide)).1⟩

/-! ## The timer callback -/

/-- The return value of the callback: restart exactly for a finite deadline. -/
theorem sched_timer_restart (cpu : Nat) (e : Env) (k : Kernel) :
    (paratick_sched_timer cpu e k).1
      = decide ((paratick_next_event e e.ktime k).1 < KTIME_MAX) := by
  unfold paratick_sched_timer
  have hv := next_event_value_congr e e.ktime k (call Call.ktime_get k) rfl
  simp only [hv]
  split_ifs with h
  · simp [h]
  · simp [h]

/-- The per-CPU data after the callback. -/
theorem sched_timer_data (cpu c : Nat) (e : Env) (k : Kernel) :
    (paratick_sched_timer cpu e k).2.data c
      = if c = cpu then
          (if (paratick_next_event e e.ktime k).1 < KTIME_MAX then
            { k.data cpu with
              timer := hrtimer_forward e.hrtimer_resolution (k.data cpu).timer e.ktime
                (paratick_next_event e e.ktime k).1 }
           else paratick_set_timer (k.data cpu) false)
        else k.data c := by
  unfold paratick_sched_timer
  have hd := next_event_data e e.ktime (call Call.ktime_get k)
  simp only [call_data] at hd
  have hv := next_event_value_congr e e.ktime k (call Call.ktime_get k) rfl
  simp only [hv]
  by_cases h : (paratick_next_event e e.ktime k).1 < KTIME_MAX
  · simp only [if_pos h, call_data, set_pd_data, hd]
  · simp only [if_neg h, call_data, set_pd_data, hd]

/-- The collaborator calls of the callback. -/
theorem sched_timer_log (cpu : Nat) (e : Env) (k : Kernel) :
    (paratick_sched_timer cpu e k).2.log
      = k.log ++ ([Call.ktime_get] ++ oracle_calls e e.ktime k.paratick_do_timer_cpu
          ++ (if (paratick_next_event e e.ktime k).1 < KTIME_MAX
              then [Call.hrtimer_forward cpu e.ktime (paratick_next_event e e.ktime k).1]
              else [Call.nohz_balance_enter_idle cpu])) := by
  unfold paratick_sched_timer
  have hl := next_event_log e e.ktime (call Call.ktime_get k)
  simp only [call_log, call_cpu] at hl
  have hv := next_event_value_congr e e.ktime k (call Call.ktime_get k) rfl
  simp only [hv]
  by_cases h : (paratick_next_event e e.ktime k).1 < KTIME_MAX
  · simp [h, hl]
  · simp [h, hl]

/-- C17. When the timer fires, the callback `paratick_sched_timer` computes
`next = paratick_next_event(now)`: when `next` is finite the timer is forwarded
by `next` and `HRTIMER_RESTART` is returned with the flag byte unchanged;
otherwise `timer_armed` is set to false, `nohz_balance_enter_idle(cpu)` is
called once, and `HRTIMER_NORESTART` is returned. In both cases the `in_idle`
and `initialized` flags, `last_tick` and the timekeeper id are unchanged. -/
theorem timer_callback (cpu : Nat) (e : Env) (k : Kernel) :
    ((paratick_next_event e e.ktime k).1 ≠ KTIME_MAX →
        (paratick_sched_timer cpu e k).1 = true
        ∧ ((paratick_sched_timer cpu e k).2.data cpu).timer
          = hrtimer_forward e.hrtimer_resolution (k.data cpu).timer e.ktime
              (paratick_next_event e e.ktime k).1
        ∧ Call.hrtimer_forward cpu e.ktime (paratick_next_event e e.ktime k).1
            ∈ calls_since k (paratick_sched_timer cpu e k).2
        ∧ ((paratick_sched_timer cpu e k).2.data cpu).flags = (k.data cpu).flags)
      ∧ ((paratick_next_event e e.ktime k).1 = KTIME_MAX →
        (paratick_sched_timer cpu e k).1 = false
        ∧ paratick_get_timer ((paratick_sched_timer cpu e k).2.data cpu) = false
        ∧ List.count (Call.nohz_balance_enter_idle cpu)
            (calls_since k (paratick_sched_timer cpu e k).2) = 1
        ∧ ((paratick_sched_timer cpu e k).2.data cpu).timer = (k.data cpu).timer)
      ∧ paratick_get_idle ((paratick_sched_timer cpu e k).2.data cpu)
          = paratick_get_idle (k.data cpu)
      ∧ paratick_get_init ((paratick_sched_timer cpu e k).2.data cpu)
          = paratick_get_init (k.data cpu)
      ∧ ((paratick_sched_timer cpu e k).2.data cpu).last_tick = (k.data cpu).last_tick
      ∧ (paratick_sched_timer cpu e k).2.paratick_do_timer_cpu = k.paratick_do_timer_cpu := by
  have hle := next_event_le e e.ktime k
  have hcalls := calls_since_of_log k _ _ (sched_timer_log cpu e k)
  have hd := sched_timer_data cpu cpu e k
  rw [if_pos rfl] at hd
  have hkeep := sched_timer_keeps cpu cpu e k
  refine ⟨?_, ?_, hkeep.idle, sched_timer_init cpu cpu e k, hkeep.last_tick,
    sched_timer_cpu cpu e k⟩
  · intro hne
    have hlt : (paratick_next_event e e.ktime k).1 < KTIME_MAX := lt_of_le_of_ne hle hne
    rw [if_pos hlt] at hd hcalls
    refine ⟨?_, ?_, ?_, ?_⟩
    · rw [sched_timer_restart]
      simp [hlt]
    · rw [hd]
    · rw [hcalls]
      simp
    · rw [hd]
  · intro heq
    have hnlt : ¬ (paratick_next_event e e.ktime k).1 < KTIME_MAX := by
      rw [heq]
      exact lt_irrefl _
    rw [if_neg hnlt] at hd hcalls
    refine ⟨?_, ?_, ?_, ?_⟩
    · rw [sched_timer_restart]
      simp [hnlt]
    · rw [hd]
      exact get_timer_set_timer (k.data cpu) false
    · rw [hcalls]
      simp only [List.count_append, oracle_calls_count_nohz]
      simp
    · rw [hd]
      rfl

/-- With the oracle inputs of scenario 1 the callback on CPU 0 asks for a restart. -/
theorem timer_callback_witness :
    (paratick_next_event env_distant env_distant.ktime (setup_paratick_timer 0 kernel_loaded)).1
        ≠ KTIME_MAX
      ∧ (paratick_sched_timer 0 env_distant (setup_paratick_timer 0 kernel_loaded)).1 = true :=
  ⟨by decide,
   ((timer_callback 0 env_distant (setup_paratick_timer 0 kernel_loaded)).1 (by decide)).1⟩

/-! ## Armed flag and registered expiry -/

theorem armed_step_refl (pd : paratick_data) : armed_step pd pd := Or.inl ⟨rfl, rfl⟩

theorem start_idle_armed_step (cpu c : Nat) (e : Env) (k : Kernel) :
    armed_step (k.data c) ((paratick_start_idle cpu e k).data c) := by
  rw [start_idle_data]
  split_ifs with h0 h1 h2
  · rw [start_tick_data]
    split_ifs with hc
    · exact Or.inr (Or.inr rfl)
    · exact armed_step_refl _
  · rw [stop_tick_data]
    split_ifs with hc
    · exact Or.inr (Or.inl (get_timer_set_timer _ false))
    · exact armed_step_refl _
  · exact armed_step_refl _
  · exact armed_step_refl _

theorem exit_idle_armed_step (cpu c : Nat) (k : Kernel) :
    armed_step (k.data c) ((paratick_exit_idle cpu k).data c) := by
  rw [exit_idle_data]
  split_ifs with hc ht
  · exact Or.inr (Or.inl (get_timer_set_timer _ false))
  · subst hc
    exact Or.inl ⟨get_timer_set_idle (k.data c) false, rfl⟩
  · exact armed_step_refl _

/-- The per-CPU data after the timer fired. -/
theorem timer_fires_data (cpu c : Nat) (e : Env) (k : Kernel) :
    (timer_fires cpu e k).data c
      = if (k.data cpu).timer.enqueued = true ∧ (k.data cpu).timer.function_set = true then
          (if c = cpu then
            (if (paratick_next_event e e.ktime k).1 < KTIME_MAX then
              { k.data cpu with
                timer :=
                  { hrtimer_forward e.hrtimer_resolution
                      { (k.data cpu).timer with enqueued := false } e.ktime
                      (paratick_next_event e e.ktime k).1 with enqueued := true } }
             else
              paratick_set_timer
                { k.data cpu with timer := { (k.data cpu).timer with enqueued := false } } false)
           else k.data c)
        else k.data c := by
  unfold timer_fires
  simp only []
  by_cases hq : (k.data cpu).timer.enqueued = true ∧ (k.data cpu).timer.function_set = true
  · rw [if_pos hq, if_pos hq]
    have hv : (paratick_next_event e e.ktime
        (set_pd cpu { k.data cpu with timer := { (k.data cpu).timer with enqueued := false } }
          k)).1 = (paratick_next_event e e.ktime k).1 :=
      next_event_value_congr e e.ktime k _ rfl
    rw [sched_timer_restart, hv]
    by_cases h : (paratick_next_event e e.ktime k).1 < KTIME_MAX
    · simp only [h, decide_True, if_true, set_pd_data, sched_timer_data, hv, set_pd_data_self]
      split_ifs with hc
      · rfl
      · rfl
    · simp only [h, decide_False, Bool.false_eq_true, if_false, sched_timer_data, hv,
        set_pd_data_self, set_pd_data]
      split_ifs with hc
      · rfl
      · rfl
  · rw [if_neg hq, if_neg hq]

theorem timer_fires_armed_step (cpu c : Nat) (e : Env) (k : Kernel) :
    armed_step (k.data c) ((timer_fires cpu e k).data c) := by
  rw [timer_fires_data]
  split_ifs with hq hc h
  · exact Or.inr (Or.inr rfl)
  · exact Or.inr (Or.inl (get_timer_set_timer _ false))
  · exact armed_step_refl _
  · exact armed_step_refl _

/-- One operation, setup excepted, keeps the pair (`timer_armed`, registered
expiry) of every CPU, or leaves the flag clear, or leaves an expiry registered;
so does `setup_paratick_timer` on the other CPUs. -/
theorem step_armed_step (k : Kernel) (ev : Event) (c : Nat)
    (h : ev.op ≠ Op.setup_paratick_timer ∨ c ≠ ev.cpu) :
    armed_step (k.data c) ((step k ev).data c) := by
  obtain ⟨op, cpu, e⟩ := ev
  cases op <;> simp only [step]
  · rw [init_data]
    split_ifs
    · exact Or.inl ⟨rfl, rfl⟩
    · exact armed_step_refl _
  · rcases h with h | h
    · exact absurd rfl h
    · have hc : ¬ c = cpu := h
      unfold setup_paratick_timer
      simp only [set_pd_data, call_data]
      rw [if_neg hc, if_neg hc]
      exact armed_step_refl _
  · rw [enter_idle_data]
    split_ifs with hc
    · subst hc
      exact Or.inl ⟨get_timer_set_idle (k.data c) true, rfl⟩
    · exact armed_step_refl _
  · exact start_idle_armed_step cpu c e k
  · exact exit_idle_armed_step cpu c k
  · rw [irq_enter_data]
    exact armed_step_refl _
  · exact armed_step_refl _
  · rw [tick_body_data]
    split_ifs with hc
    · subst hc
      exact Or.inl ⟨rfl, rfl⟩
    · exact armed_step_refl _
  · simp only [handle_paratick_irq, call_data]
    rw [tick_body_data]
    split_ifs with hc
    · subst hc
      exact Or.inl ⟨rfl, rfl⟩
    · exact armed_step_refl _
  · exact timer_fires_armed_step cpu c e k

/-- The flag `timer_armed` after `setup_paratick_timer` is the flag before. -/
theorem setup_get_timer (cpu : Nat) (k : Kernel) :
    paratick_get_timer ((setup_paratick_timer cpu k).data cpu)
      = paratick_get_timer (k.data cpu) := by
  unfold setup_paratick_timer
  simp only [set_pd_data_self]
  exact get_timer_set_init _ true

/-- One operation preserves "an armed CPU has a registered expiry", provided it is
not `setup_paratick_timer` on a CPU whose `timer_armed` flag is set. -/
theorem step_armed_is_registered (k : Kernel) (ev : Event)
    (hs : ev.op ≠ Op.setup_paratick_timer ∨ paratick_get_timer (k.data ev.cpu) = false)
    (h : armed_is_registered k) : armed_is_registered (step k ev) := by
  intro c hc
  by_cases hcase : ev.op ≠ Op.setup_paratick_timer ∨ c ≠ ev.cpu
  · rcases step_armed_step k ev c hcase with ⟨h1, h2⟩ | h1 | h1
    · rw [h2]
      rw [h1] at hc
      exact h c hc
    · rw [h1] at hc
      exact absurd hc (by decide)
    · exact h1
  · have hop : ev.op = Op.setup_paratick_timer := by
      by_contra hne
      exact hcase (Or.inl hne)
    have hcpu : c = ev.cpu := by
      by_contra hne
      exact hcase (Or.inr hne)
    have hoff : paratick_get_timer (k.data ev.cpu) = false := by
      rcases hs with hs | hs
      · exact absurd hop hs
      · exact hs
    obtain ⟨op, cpu, e⟩ := ev
    simp only at hop hcpu hoff
    subst hop
    subst hcpu
    simp only [step] at hc
    rw [setup_get_timer, hoff] at hc
    exact absurd hc (by decide)

theorem exec_armed_is_registered (evs : List Event) (k : Kernel)
    (hs : setup_while_disarmed k evs = true) (h : armed_is_registered k) :
    armed_is_registered (exec k evs) := by
  induction evs generalizing k with
  | nil => exact h
  | cons ev evs ih =>
    simp only [setup_while_disarmed, Bool.and_eq_true, Bool.or_eq_true, decide_eq_true_eq,
      Bool.not_eq_true'] at hs
    rw [exec_cons]
    exact ih (step k ev) hs.2 (step_armed_is_registered k ev hs.1 h)

set_option maxRecDepth 100000 in
/-- Why `setup_paratick_timer` is to run once per CPU: when CPU 0 is set up,
enters idle and arms its tick, and `setup_paratick_timer` then runs on it a
second time, `hrtimer_init` leaves a fresh timer with no registered expiry
while the `timer_armed` flag stays set. -/
theorem setup_twice_drops_expiry :
    paratick_get_timer ((exec boot trace_setup_twice).data 0) = true
      ∧ ((exec boot trace_setup_twice).data 0).timer.enqueued = false
      ∧ paratick_get_timer ((exec boot (trace_setup_twice.take 4)).data 0) = true
      ∧ ((exec boot (trace_setup_twice.take 4)).data 0).timer.enqueued = true := by
  decide

/-- An operation sets `timer_armed` only on an initialized CPU. -/
theorem step_timer_flag (k : Kernel) (ev : Event) (c : Nat)
    (h : paratick_get_timer ((step k ev).data c) = true) :
    paratick_get_timer (k.data c) = true ∨ paratick_get_init (k.data c) = true := by
  obtain ⟨op, cpu, e⟩ := ev
  cases op <;> simp only [step] at h
  · rw [init_data] at h
    split_ifs at h
    · exact Or.inl h
    · exact Or.inl h
  · by_cases hc : c = cpu
    · subst hc
      rw [setup_get_timer] at h
      exact Or.inl h
    · unfold setup_paratick_timer at h
      simp only [set_pd_data, call_data] at h
      rw [if_neg hc, if_neg hc] at h
      exact Or.inl h
  · rw [enter_idle_data] at h
    split_ifs at h with hc
    · subst hc
      rw [get_timer_set_idle] at h
      exact Or.inl h
    · exact Or.inl h
  · rw [start_idle_data] at h
    split_ifs at h with h0 h1 h2
    · rw [start_tick_data] at h
      split_ifs at h with hc
      · subst hc
        exact Or.inr h0
      · exact Or.inl h
    · rw [stop_tick_data] at h
      split_ifs at h with hc
      · rw [get_timer_set_timer] at h
        exact absurd h (by decide)
      · exact Or.inl h
    · exact Or.inl h
    · exact Or.inl h
  · rw [exit_idle_data] at h
    split_ifs at h with hc ht
    · rw [get_timer_set_timer] at h
      exact absurd h (by decide)
    · subst hc
      rw [get_timer_set_idle] at h
      exact Or.inl h
    · exact Or.inl h
  · rw [irq_enter_data] at h
    exact Or.inl h
  · exact Or.inl h
  · rw [tick_body_data] at h
    split_ifs at h with hc
    · subst hc
      exact Or.inl h
    · exact Or.inl h
  · simp only [handle_paratick_irq, call_data] at h
    rw [tick_body_data] at h
    split_ifs at h with hc
    · subst hc
      exact Or.inl h
    · exact Or.inl h
  · rw [timer_fires_data] at h
    split_ifs at h with hq hc hn
    · subst hc
      exact Or.inl h
    · rw [get_timer_set_timer] at h
      exact absurd h (by decide)
    · exact Or.inl h
    · exact Or.inl h

/-- An `initialized` flag that is set stays set. -/
theorem step_init_stays (k : Kernel) (ev : Event) (c : Nat)
    (h : paratick_get_init (k.data c) = true) :
    paratick_get_init ((step k ev).data c) = true := by
  by_cases hcase : ev.op ≠ Op.setup_paratick_timer ∨ c ≠ ev.cpu
  · rw [step_init k ev c hcase, h]
  · have hop : ev.op = Op.setup_paratick_timer := by
      by_contra hne
      exact hcase (Or.inl hne)
    have hcpu : c = ev.cpu := by
      by_contra hne
      exact hcase (Or.inr hne)
    obtain ⟨op, cpu, e⟩ := ev
    simp only at hop hcpu
    subst hop
    subst hcpu
    simp only [step]
    unfold setup_paratick_timer
    simp only [set_pd_data_self]
    exact get_init_set_init _ true

theorem step_armed_is_initialized (k : Kernel) (ev : Event) (h : armed_is_initialized k) :
    armed_is_initialized (step k ev) := by
  intro c hc
  rcases step_timer_flag k ev c hc with h1 | h1
  · exact step_init_stays k ev c (h c h1)
  · exact step_init_stays k ev c h1

/-- When `setup_paratick_timer` runs at most once on each CPU, and no CPU that is
still to be set up is initialized, it never runs on an armed CPU. -/
theorem setup_once_disarmed (evs : List Event) (k : Kernel)
    (hinv : armed_is_initialized k) (honce : setup_once evs = true)
    (hfresh : ∀ ev ∈ evs, ev.op = Op.setup_paratick_timer →
      paratick_get_init (k.data ev.cpu) = false) :
    setup_while_disarmed k evs = true := by
  induction evs generalizing k with
  | nil => rfl
  | cons ev evs ih =>
    simp only [setup_once, Bool.and_eq_true, Bool.or_eq_true, decide_eq_true_eq,
      List.all_eq_true] at honce
    simp only [setup_while_disarmed, Bool.and_eq_true, Bool.or_eq_true, decide_eq_true_eq,
      Bool.not_eq_true']
    refine ⟨?_, ih (step k ev) (step_armed_is_initialized k ev hinv) honce.2 ?_⟩
    · by_cases hop : ev.op = Op.setup_paratick_timer
      · right
        have hni := hfresh ev (List.mem_cons_self _ _) hop
        by_contra harmed
        have : paratick_get_timer (k.data ev.cpu) = true := by simpa using harmed
        rw [hinv ev.cpu this] at hni
        exact absurd hni (by decide)
      · exact Or.inl hop
    · intro ev2 hmem hop2
      have hni := hfresh ev2 (List.mem_cons_of_mem _ hmem) hop2
      have hcase : ev.op ≠ Op.setup_paratick_timer ∨ ev2.cpu ≠ ev.cpu := by
        rcases honce.1 with h1 | h1
        · exact Or.inl h1
        · rcases h1 ev2 hmem with h2 | h2
          · exact absurd hop2 h2
          · exact Or.inr h2
      rw [step_init k ev ev2.cpu hcase, hni]

/-- C13. Armed flag implies an active timer: in every state reached by the public
operations and the timer expiry, with `setup_paratick_timer` run at most once
on each CPU (or, more generally, never on a CPU whose `timer_armed` flag is
set), `timer_armed` implies that the CPU's timer has an expiry registered. The
trace starts in the initial state, so it covers every state reached from
setup and the states before it. -/
theorem armed_implies_registered (evs : List Event) (c : Nat)
    (hsetup : setup_while_disarmed boot evs = true ∨ setup_once evs = true)
    (harmed : paratick_get_timer ((exec boot evs).data c) = true) :
    ((exec boot evs).data c).timer.enqueued = true := by
  have h0 : armed_is_registered boot := by
    intro c hc
    simp [boot, paratick_get_timer, paratick_get_flag] at hc
  have h1 : armed_is_initialized boot := by
    intro c hc
    simp [boot, paratick_get_timer, paratick_get_flag] at hc
  have hs : setup_while_disarmed boot evs = true := by
    rcases hsetup with h | h
    · exact h
    · refine setup_once_disarmed evs boot h1 h ?_
      intro ev _ _
      simp [boot, paratick_get_init, paratick_get_flag]
  exact exec_armed_is_registered evs boot hs h0 c harmed

set_option maxRecDepth 100000 in
/-- On the example trace CPU 3 is set up once, enters idle and arms its tick:
`timer_armed` is set and an expiry is registered. -/
theorem armed_implies_registered_witness :
    setup_once trace_example = true
      ∧ paratick_get_timer ((exec boot trace_example).data 3) = true
      ∧ ((exec boot trace_example).data 3).timer.enqueued = true :=
  ⟨by decide, by decide,
   armed_implies_registered trace_example 3 (Or.inr (by decide)) (by decide)⟩

end Paratick
